import Mathlib

/-!
Verification of the pattern-analysis and scoring engine of the poo-tracker
AI service (`src/ai-service/src/ai_service/`).

The Python services are shallowly embedded: timestamps are minutes since an
arbitrary epoch (`ℤ`), real-valued averages and scores are exact rationals
(`ℚ`), and a calendar date is the floor of a timestamp divided by the
1440 minutes of a day.  Optional numeric fields (`pain`, `strain`,
`satisfaction`, `spicy_level`) are `Option ℤ`.  Where pandas produces a
float `NaN` (the mean of an empty selection) the embedding uses `none`
in an `Option ℚ`, and every consumer of such a value reproduces the
truthiness/comparison behaviour Python exhibits on `NaN`.
-/

namespace PooTracker

/-- Minutes per calendar day; `created_at.date()` is embedded as flooring
a minute timestamp to its day. -/
def minutesPerDay : ℤ := 1440

/-- Calendar date of a minute timestamp (`.date()` on a Python datetime). -/
def dateOf (t : ℤ) : ℤ := Int.fdiv t minutesPerDay

/-- Mean of a list of rationals; the callers below only evaluate it on
non-empty lists (`sum(xs) / len(xs)` in the source). -/
def meanQ (l : List ℚ) : ℚ := l.sum / l.length

/-- Mean of a list of integers as a rational. -/
def meanZ (l : List ℤ) : ℚ := (l.sum : ℚ) / l.length

/-- Mean over the non-`none` entries of an optional-valued list, `none` when
there are no such entries.  This is pandas `series.dropna().mean()`, whose
result on an empty selection is `NaN` (embedded as `none`). -/
def dropnaMean (l : List (Option ℤ)) : Option ℚ :=
  let xs := l.filterMap id
  if xs.isEmpty then none else some (meanZ xs)

/-- Bowel movement record
(`BowelMovementData`, src/ai_service/models/database.py).  Fields not used
by any analysed computation (ids, volume, color, consistency, floaters,
recorded_at) are omitted. -/
structure BowelMovementData where
  bristol_type : ℤ
  pain : Option ℤ := none
  strain : Option ℤ := none
  satisfaction : Option ℤ := none
  created_at : ℤ
deriving DecidableEq

/-- Meal record (`MealData`, src/ai_service/models/database.py).  The
`dairy`/`gluten`/`fiber_rich` flags keep their optional typing; boolean
selection in the source only has defined behaviour when the flag is an
actual boolean, embedded as filtering on `some true`. -/
structure MealData where
  meal_time : ℤ
  category : Option String := none
  spicy_level : Option ℤ := none
  fiber_rich : Option Bool := none
  dairy : Option Bool := none
  gluten : Option Bool := none
deriving DecidableEq

/-- Symptom record (`SymptomData`, src/ai_service/models/database.py). -/
structure SymptomData where
  type : String
  severity : ℤ
  created_at : ℤ
deriving DecidableEq

/-! ## Bristol trend (`_analyze_bristol_patterns`, analyzer.py lines 124-142) -/

/-- Distance of an average from the ideal Bristol band 3-4:
`min(abs(avg - 3), abs(avg - 4))`. -/
def distFromIdeal (x : ℚ) : ℚ := min |x - 3| |x - 4|

/-- The trend field of `_analyze_bristol_patterns`: `None` by initialisation,
overwritten only when `len(df) > 10`, in which case the last third
(`df.tail(len(df) // 3)`) and first third (`df.head(len(df) // 3)`) of the
records in input order are compared by their mean distance from the ideal
band with a 0.3 dead zone. -/
def bristolTrend (l : List ℤ) : Option String :=
  if 10 < l.length then
    let n := l.length / 3
    let recentAvg := meanZ (l.drop (l.length - n))
    let earlyAvg := meanZ (l.take n)
    let recentDistance := distFromIdeal recentAvg
    let earlyDistance := distFromIdeal earlyAvg
    some (if recentDistance < earlyDistance - 3/10 then "improving"
          else if earlyDistance + 3/10 < recentDistance then "declining"
          else "stable")
  else none

/-- The first-third / last-third comparison on its own, the computation the
spec describes as "split into first-third / last-third; compute
distance-from-ideal for each third's mean; compare with a ±0.3 threshold". -/
def trendOfThirds (l : List ℤ) : String :=
  let n := l.length / 3
  let recentDistance := distFromIdeal (meanZ (l.drop (l.length - n)))
  let earlyDistance := distFromIdeal (meanZ (l.take n))
  if recentDistance < earlyDistance - 3/10 then "improving"
  else if earlyDistance + 3/10 < recentDistance then "declining"
  else "stable"

/-! ## Digestion window (analyzer.py lines 324-333, pattern_detector.py
lines 271-280) -/

/-- Membership of a record timestamp in a meal's digestion window:
`meal_time + 6h <= t <= meal_time + 48h`, both comparisons inclusive in the
source (`>=` and `<=`). -/
def inDigestionWindow (mealTime t : ℤ) : Bool :=
  decide (mealTime + 360 ≤ t) && decide (t ≤ mealTime + 2880)

/-- The records of `bms` falling in the digestion window of a meal eaten at
`mealTime` (the `related_bms` selection of
`_calculate_meal_category_correlation` and the inner loop of
`_detect_meal_patterns`). -/
def windowRecords (bms : List BowelMovementData) (mealTime : ℤ) :
    List BowelMovementData :=
  bms.filter (fun bm => inDigestionWindow mealTime bm.created_at)

/-! ## Meal category correlation
(`_calculate_meal_category_correlation`, analyzer.py lines 315-363) -/

/-- Result dictionary of `_calculate_meal_category_correlation`.  Whenever at
least one meal has a non-empty window all three keys are present, because the
`pain`/`satisfaction` columns always exist and `dropna().mean()` of an empty
selection is `NaN` (not `None`), which the `is not None` guards let through.
An inner `none` is such a propagated `NaN`. -/
structure MealCorrelation where
  avg_bristol_scores : ℚ
  avg_pain_scores : Option ℚ
  avg_satisfaction_scores : Option ℚ
deriving DecidableEq

/-- Per-meal window average of the Bristol scale, for meals whose window is
non-empty (the `bristol_scores` list accumulated by the source loop). -/
def perMealBristolAvgs (bms : List BowelMovementData) (meals : List MealData) :
    List ℚ :=
  meals.filterMap (fun m =>
    let w := windowRecords bms m.meal_time
    if w.isEmpty then none
    else some (meanZ (w.map (·.bristol_type))))

/-- Per-meal `dropna` means of an optional field over the window, one entry
per meal with a non-empty window; an entry is `none` when that window has no
non-null value (pandas `NaN`). -/
def perMealOptAvgs (field : BowelMovementData → Option ℤ)
    (bms : List BowelMovementData) (meals : List MealData) :
    List (Option ℚ) :=
  meals.filterMap (fun m =>
    let w := windowRecords bms m.meal_time
    if w.isEmpty then none else some (dropnaMean (w.map field)))

/-- Final average of a list of per-meal averages that may contain `NaN`
entries: Python's `sum(scores) / len(scores)` yields `NaN` as soon as one
entry is `NaN`. -/
def nanMean (l : List (Option ℚ)) : Option ℚ :=
  if l.all Option.isSome then some (meanQ (l.filterMap id)) else none

/-- `_calculate_meal_category_correlation(bm_df, meal_df, category)`:
`None` when no meal of the group has a record in its digestion window,
otherwise the averages of the per-meal window averages. -/
def calcMealCategoryCorrelation (bms : List BowelMovementData)
    (meals : List MealData) : Option MealCorrelation :=
  if meals.isEmpty then none
  else
  let bristolScores := perMealBristolAvgs bms meals
  if bristolScores.isEmpty then none
  else some
    { avg_bristol_scores := meanQ bristolScores
      avg_pain_scores := nanMean (perMealOptAvgs (·.pain) bms meals)
      avg_satisfaction_scores :=
        nanMean (perMealOptAvgs (·.satisfaction) bms meals) }

/-- The aggregation the spec sentence describes: pool every record of every
qualifying window into one multiset (a record occurring in several windows is
counted once per window) and average the primary scale over that pool. -/
def pooledAvgBristol (bms : List BowelMovementData) (meals : List MealData) :
    Option ℚ :=
  let pooled := meals.flatMap (fun m => windowRecords bms m.meal_time)
  if pooled.isEmpty then none
  else some (meanZ (pooled.map (·.bristol_type)))

/-! ## Trigger / beneficial foods
(`_identify_trigger_beneficial_foods`, analyzer.py lines 365-417) -/

/-- Entry of the `trigger_foods` list. -/
structure TriggerFood where
  type : String
  avg_bristol : ℚ
  avg_pain : Option ℚ
  severity : String
deriving DecidableEq

/-- Entry of the `beneficial_foods` list. -/
structure BeneficialFood where
  type : String
  avg_bristol : ℚ
  avg_pain : Option ℚ
  benefit_level : String
deriving DecidableEq

/-- pandas boolean-mask row selection `df[df[flag]]`: when the flag column
holds a missing value the mask is a non-boolean array and pandas raises
`ValueError: Cannot mask with non-boolean array containing NA / NaN values`;
otherwise the rows whose flag is `True` are kept. -/
def maskSelect (flag : MealData → Option Bool) (meals : List MealData) :
    Except String (List MealData) :=
  if meals.all (fun m => (flag m).isSome) then
    .ok (meals.filter (fun m => flag m == some true))
  else .error "Cannot mask with non-boolean array containing NA / NaN values"

/-- The four food-characteristic buckets of the analyzer, in dict-literal
evaluation order: `spicy` is `spicy_level.fillna(0) > 5` (never failing,
missing levels being filled before the comparison), while the `dairy`,
`gluten` and `fiber_rich` boolean masks each raise the pandas `ValueError`
when their column holds a missing value, the `dairy` mask first. -/
def analyzerFoodGroups (meals : List MealData) :
    Except String (List (String × List MealData)) :=
  match maskSelect (fun m => m.dairy) meals with
  | .error e => .error e
  | .ok dairyRows =>
    match maskSelect (fun m => m.gluten) meals with
    | .error e => .error e
    | .ok glutenRows =>
      match maskSelect (fun m => m.fiber_rich) meals with
      | .error e => .error e
      | .ok fiberRows =>
        .ok [("spicy",
              meals.filter (fun m => decide (5 < m.spicy_level.getD 0))),
             ("dairy", dairyRows),
             ("gluten", glutenRows),
             ("fiber_rich", fiberRows)]

/-- Python `avg_pain and avg_pain > c` on a possibly-`NaN` average:
`NaN` (here `none`) is truthy but compares false, and a number passes the
truthiness test exactly when it is non-zero. -/
def optPainGT (c : ℚ) : Option ℚ → Bool
  | none => false
  | some p => decide (p ≠ 0) && decide (c < p)

/-- Python `not avg_pain or avg_pain <= c` when the average is a possibly-`NaN`
number (analyzer path): `not NaN` is false and `NaN <= c` is false. -/
def nanFalsyOrLE (c : ℚ) : Option ℚ → Bool
  | none => false
  | some p => decide (p = 0) || decide (p ≤ c)

/-- Python `not avg_pain or avg_pain <= c` when the average is `None` for a
bucket with no pain data (pattern-detector path): `not None` is true. -/
def noneFalsyOrLE (c : ℚ) : Option ℚ → Bool
  | none => true
  | some p => decide (p = 0) || decide (p ≤ c)

/-- One iteration of the loop of `_identify_trigger_beneficial_foods`:
skip an empty bucket, correlate it, then classify as trigger
(`avg_bristol <= 2 or avg_bristol >= 6 or (avg_pain and avg_pain > 5)`)
or — `elif` — as beneficial
(`3 <= avg_bristol <= 4 and (not avg_pain or avg_pain <= 2)`). -/
def classifyFoodGroup (bms : List BowelMovementData) (name : String)
    (groupMeals : List MealData) : List TriggerFood × List BeneficialFood :=
  if groupMeals.isEmpty then ([], [])
  else
    match calcMealCategoryCorrelation bms groupMeals with
    | none => ([], [])
    | some c =>
      let b := c.avg_bristol_scores
      let p := c.avg_pain_scores
      if b ≤ 2 ∨ 6 ≤ b ∨ optPainGT 5 p then
        ([{ type := name, avg_bristol := b, avg_pain := p,
            severity := if optPainGT 7 p then "high" else "medium" }], [])
      else if 3 ≤ b ∧ b ≤ 4 ∧ nanFalsyOrLE 2 p then
        ([], [{ type := name, avg_bristol := b, avg_pain := p,
                benefit_level := if 7/2 ≤ b ∧ b ≤ 4 then "high" else "medium" }])
      else ([], [])

/-- `_identify_trigger_beneficial_foods(bm_df, meal_df)`: building the
bucket dict raises the pandas masking `ValueError` when a boolean flag
column holds a missing value; otherwise the loop classifies each bucket. -/
def identifyTriggerBeneficialFoods (bms : List BowelMovementData)
    (meals : List MealData) :
    Except String (List TriggerFood × List BeneficialFood) :=
  match analyzerFoodGroups meals with
  | .error e => .error e
  | .ok gs =>
    .ok (gs.foldr
      (fun g acc =>
        let r := classifyFoodGroup bms g.1 g.2
        (r.1 ++ acc.1, r.2 ++ acc.2))
      ([], []))

/-- Modelled from the claim wording, for comparison with the source: buckets
with `spicy_level > 6`, trigger when avg-bristol ≤ 2 or ≥ 6 or avg-pain > 6,
severity high when avg-pain > 7, beneficial when avg-bristol ∈ [3,4] and
avg-pain ≤ 3 or absent. -/
def claimFoodGroups (meals : List MealData) : List (String × List MealData) :=
  [("spicy", meals.filter (fun m => decide (6 < m.spicy_level.getD 0))),
   ("dairy", meals.filter (fun m => m.dairy == some true)),
   ("gluten", meals.filter (fun m => m.gluten == some true)),
   ("fiber_rich", meals.filter (fun m => m.fiber_rich == some true))]

/-- Avg-pain strictly above `c`, an absent average never qualifying
(claim wording). -/
def claimPainGT (c : ℚ) : Option ℚ → Bool
  | none => false
  | some q => decide (c < q)

/-- Avg-pain at most `c` or absent (claim wording). -/
def claimPainLEOrAbsent (c : ℚ) : Option ℚ → Bool
  | none => true
  | some q => decide (q ≤ c)

/-- Trigger/beneficial classification with the thresholds the claim states
(see `claimFoodGroups`). -/
def identifyTriggerBeneficialFoodsClaim (bms : List BowelMovementData)
    (meals : List MealData) : List TriggerFood × List BeneficialFood :=
  (claimFoodGroups meals).foldr
    (fun g acc =>
      match calcMealCategoryCorrelation bms g.2 with
      | none => acc
      | some c =>
        let b := c.avg_bristol_scores
        let p := c.avg_pain_scores
        if b ≤ 2 ∨ 6 ≤ b ∨ claimPainGT 6 p then
          ({ type := g.1, avg_bristol := b, avg_pain := p,
             severity := if claimPainGT 7 p then "high" else "medium" }
             :: acc.1, acc.2)
        else if 3 ≤ b ∧ b ≤ 4 ∧ claimPainLEOrAbsent 3 p then
          (acc.1, { type := g.1, avg_bristol := b, avg_pain := p,
                    benefit_level := if 7/2 ≤ b ∧ b ≤ 4 then "high"
                                     else "medium" } :: acc.2)
        else acc)
    ([], [])

/-- The trigger condition of `_identify_trigger_beneficial_foods` with the
source's actual thresholds, as one option-valued classifier: an entry exactly
when avg-bristol ≤ 2 or ≥ 6 or avg-pain > 5, severity high exactly when
avg-pain > 7. -/
def triggerEntryOf (name : String) (c : MealCorrelation) : Option TriggerFood :=
  if c.avg_bristol_scores ≤ 2 ∨ 6 ≤ c.avg_bristol_scores ∨
      optPainGT 5 c.avg_pain_scores then
    some { type := name, avg_bristol := c.avg_bristol_scores,
           avg_pain := c.avg_pain_scores,
           severity := if optPainGT 7 c.avg_pain_scores then "high"
                       else "medium" }
  else none

/-- The beneficial condition with the source's actual thresholds:
an entry exactly when avg-bristol ∈ [3,4] and avg-pain is zero/falsy or ≤ 2
(a `NaN` pain average never qualifies). -/
def beneficialEntryOf (name : String) (c : MealCorrelation) :
    Option BeneficialFood :=
  if 3 ≤ c.avg_bristol_scores ∧ c.avg_bristol_scores ≤ 4 ∧
      nanFalsyOrLE 2 c.avg_pain_scores then
    some { type := name, avg_bristol := c.avg_bristol_scores,
           avg_pain := c.avg_pain_scores,
           benefit_level := if 7/2 ≤ c.avg_bristol_scores ∧
               c.avg_bristol_scores ≤ 4 then "high" else "medium" }
  else none

/-- Trigger classification restated declaratively over a bucket list: each
bucket contributes its entry exactly when it correlates and `triggerEntryOf`
accepts it. -/
def triggerFoodsAmended (bms : List BowelMovementData)
    (gs : List (String × List MealData)) : List TriggerFood :=
  gs.filterMap (fun g =>
    (calcMealCategoryCorrelation bms g.2).bind (triggerEntryOf g.1))

/-- Beneficial classification restated declaratively over a bucket list,
with no reference to the trigger condition: the `elif` of the source is
immaterial because the beneficial condition excludes the trigger
condition. -/
def beneficialFoodsAmended (bms : List BowelMovementData)
    (gs : List (String × List MealData)) : List BeneficialFood :=
  gs.filterMap (fun g =>
    (calcMealCategoryCorrelation bms g.2).bind (beneficialEntryOf g.1))

/-! ## Pattern-detector meal patterns
(`_detect_meal_patterns`, pattern_detector.py lines 249-334) -/

/-- Pattern entry appended by `_detect_meal_patterns` (`trigger_food` or
`beneficial_food`). -/
structure MealPattern where
  type : String
  food_type : String
  average_bristol : ℚ
  average_pain : Option ℚ
  sample_size : ℕ
deriving DecidableEq

/-- Value of `correlations[food_type]` in `_detect_meal_patterns`. -/
structure FoodCorrelationEntry where
  average_bristol : ℚ
  average_pain : Option ℚ
  sample_size : ℕ
deriving DecidableEq

/-- The pattern detector's buckets: `spicy` is
`m.spicy_level and m.spicy_level > 6` (truthiness, then comparison). -/
def detectorMealGroups (meals : List MealData) :
    List (String × List MealData) :=
  [("spicy", meals.filter (fun m =>
      match m.spicy_level with
      | some s => decide (s ≠ 0) && decide (6 < s)
      | none => false)),
   ("dairy", meals.filter (fun m => m.dairy == some true)),
   ("gluten", meals.filter (fun m => m.gluten == some true)),
   ("fiber_rich", meals.filter (fun m => m.fiber_rich == some true))]

/-- The movements 6-48h after any meal of the bucket, in the nested loop
order of `_detect_meal_patterns` (meals outer, movements inner). -/
def detectorRelated (bms : List BowelMovementData) (typeMeals : List MealData) :
    List BowelMovementData :=
  typeMeals.flatMap (fun m => windowRecords bms m.meal_time)

/-- One bucket iteration of `_detect_meal_patterns`: skip an empty bucket,
require at least 3 related movements, then classify (trigger, `elif`
beneficial) and record the bucket's correlation entry. -/
def bucketMealOutput (bms : List BowelMovementData)
    (g : String × List MealData) :
    List MealPattern × List (String × FoodCorrelationEntry) :=
  if g.2.isEmpty then ([], [])
  else
    let related := detectorRelated bms g.2
    if related.length < 3 then ([], [])
    else
      let avgBristol := meanZ (related.map (·.bristol_type))
      let painScores := (related.map (·.pain)).filterMap id
      let avgPain : Option ℚ :=
        if painScores.isEmpty then none else some (meanZ painScores)
      let isTrigger := avgBristol ≤ 2 ∨ 6 ≤ avgBristol ∨ optPainGT 6 avgPain
      let isBeneficial := 3 ≤ avgBristol ∧ avgBristol ≤ 4 ∧
        noneFalsyOrLE 3 avgPain
      let patterns :=
        if isTrigger then
          [{ type := "trigger_food", food_type := g.1,
             average_bristol := avgBristol, average_pain := avgPain,
             sample_size := related.length }]
        else if isBeneficial then
          [{ type := "beneficial_food", food_type := g.1,
             average_bristol := avgBristol, average_pain := avgPain,
             sample_size := related.length }]
        else []
      (patterns,
       [(g.1, { average_bristol := avgBristol, average_pain := avgPain,
                sample_size := related.length })])

/-- `_detect_meal_patterns(bowel_movements, meals)`: `None` without meals or
with fewer than 5 movements, otherwise the concatenated bucket outputs. -/
def detectMealPatterns (bms : List BowelMovementData) (meals : List MealData) :
    Option (List MealPattern × List (String × FoodCorrelationEntry)) :=
  if meals.isEmpty ∨ bms.length < 5 then none
  else some ((detectorMealGroups meals).foldr
    (fun g acc =>
      let r := bucketMealOutput bms g
      (r.1 ++ acc.1, r.2 ++ acc.2))
    ([], []))

/-! ## Symptom correlations
(`_analyze_symptom_correlations` / `_calculate_symptom_correlation`,
analyzer.py lines 230-243 and 453-492;
`_detect_symptom_patterns`, pattern_detector.py lines 336-389) -/

/-- Helper for `firstDedup`. -/
def firstDedupAux [DecidableEq α] (seen : List α) : List α → List α
  | [] => []
  | x :: xs =>
    if x ∈ seen then firstDedupAux seen xs
    else x :: firstDedupAux (x :: seen) xs

/-- Distinct elements in first-occurrence order: `pandas.Series.unique`, and
the key order of a Python dict filled by insertion. -/
def firstDedup [DecidableEq α] (l : List α) : List α := firstDedupAux [] l

/-- Records within ±12h of a symptom, both bounds inclusive
(analyzer.py lines 472-478; pattern_detector.py lines 360-365). -/
def symptomWindowRecords (bms : List BowelMovementData) (s : SymptomData) :
    List BowelMovementData :=
  bms.filter (fun bm =>
    decide (s.created_at - 720 ≤ bm.created_at) &&
    decide (bm.created_at ≤ s.created_at + 720))

/-- Correlation dictionary built by `_calculate_symptom_correlation`:
`avg_severity` is always present; the `with_symptoms` averages only when
some record fell in some symptom's window (`avg_pain_with_symptoms` may
additionally be a `NaN`, the inner `none`, when none of those records carries
a pain value). -/
structure SymptomCorrelation where
  avg_severity : ℚ
  avg_bristol_with_symptoms : Option ℚ
  avg_pain_with_symptoms : Option (Option ℚ)
deriving DecidableEq

/-- `_calculate_symptom_correlation(bm_df, symptom_df)`. -/
def calcSymptomCorrelation (bms : List BowelMovementData)
    (typeSymptoms : List SymptomData) : Option SymptomCorrelation :=
  if typeSymptoms.isEmpty then none
  else
    let related := typeSymptoms.flatMap (symptomWindowRecords bms)
    some
      { avg_severity := meanZ (typeSymptoms.map (·.severity))
        avg_bristol_with_symptoms :=
          if related.isEmpty then none
          else some (meanZ (related.map (·.bristol_type)))
        avg_pain_with_symptoms :=
          if related.isEmpty then none
          else some (dropnaMean (related.map (·.pain))) }

/-- `_analyze_symptom_correlations(bm_df, symptom_df)`: one entry per
distinct symptom type, keyed in first-appearance order. -/
def analyzeSymptomCorrelations (bms : List BowelMovementData)
    (syms : List SymptomData) : List (String × SymptomCorrelation) :=
  (firstDedup (syms.map (·.type))).filterMap (fun t =>
    (calcSymptomCorrelation bms (syms.filter (·.type == t))).map
      (fun c => (t, c)))

/-- Pattern entry of `_detect_symptom_patterns`. -/
structure SymptomPattern where
  symptom_type : String
  average_severity : ℚ
  associated_bristol : ℚ
  occurrence_count : ℕ
deriving DecidableEq

/-- `_detect_symptom_patterns(bowel_movements, symptoms)`: `None` without
symptoms; a type needs at least 3 occurrences, and then at least one record
within ±12h of one of them, to yield a pattern. -/
def detectSymptomPatterns (bms : List BowelMovementData)
    (syms : List SymptomData) : Option (List SymptomPattern) :=
  if syms.isEmpty then none
  else some ((firstDedup (syms.map (·.type))).flatMap (fun t =>
    let ts := syms.filter (·.type == t)
    if ts.length < 3 then []
    else
      let related := ts.flatMap (symptomWindowRecords bms)
      if related.isEmpty then []
      else
        [{ symptom_type := t
           average_severity := meanZ (ts.map (·.severity))
           associated_bristol := meanZ (related.map (·.bristol_type))
           occurrence_count := ts.length }]))

/-! ## Bristol distribution and percentages
(`_analyze_bristol_patterns`, analyzer.py lines 101-122) -/

/-- Floor of a rational, written out computationally (`Rat.floor_def`). -/
def ratFloor (x : ℚ) : ℤ := x.num / (x.den : ℤ)

/-- Round a rational to the nearest integer, ties to the even neighbour —
the rounding of numpy/pandas `.round` and Python's `round`. -/
def roundHalfEven (x : ℚ) : ℤ :=
  if x - (ratFloor x : ℚ) < 1/2 then ratFloor x
  else if 1/2 < x - (ratFloor x : ℚ) then ratFloor x + 1
  else if ratFloor x % 2 = 0 then ratFloor x else ratFloor x + 1

/-- `.round(2)`: two-decimal rounding, ties to even. -/
def round2 (x : ℚ) : ℚ := (roundHalfEven (100 * x) : ℚ) / 100

/-- The index of `value_counts().sort_index()`: distinct Bristol values in
ascending order. -/
def sortedBristolValues (l : List ℤ) : List ℤ :=
  l.dedup.insertionSort (· ≤ ·)

/-- `bristol_counts`: count per distinct Bristol value, ascending index. -/
def bristolDistribution (l : List ℤ) : List (ℤ × ℕ) :=
  (sortedBristolValues l).map (fun v => (v, l.count v))

/-- `bristol_percentages = (bristol_counts / total_entries * 100).round(2)`. -/
def bristolPercentages (l : List ℤ) : List (ℤ × ℚ) :=
  (sortedBristolValues l).map (fun v =>
    (v, round2 ((l.count v : ℚ) / l.length * 100)))

/-- Sum of the per-category percentages. -/
def percentageSum (l : List ℤ) : ℚ :=
  ((bristolPercentages l).map Prod.snd).sum

/-! ## Daily frequencies
(`_calculate_daily_frequencies`, health_assessor.py lines 123-136;
`_calculate_frequency_stats`, analyzer.py lines 180-195) -/

/-- Per-day record counts, grouped by calendar date.  The health assessor
builds them through an insertion-ordered dict and the analyzer through a
pandas group-by with sorted keys; the two orders carry the same multiset of
counts, and nothing downstream depends on the order. -/
def dailyCounts (bms : List BowelMovementData) : List ℕ :=
  let dates := bms.map (fun bm => dateOf bm.created_at)
  (firstDedup dates).map (fun d => dates.count d)

/-- `daily_counts.mean()` / the mean of the daily-frequency series: the
`avg_daily` field of the analyzer's frequency stats and the average the
frequency score and frequency risks are computed from. -/
def avgDaily (bms : List BowelMovementData) : ℚ :=
  meanQ ((dailyCounts bms).map (Nat.cast : ℕ → ℚ))

/-- The frequency-statistics fields used downstream
(`_calculate_frequency_stats`; the consistency score, whose value takes a
real square root, feeds no analysed claim and is omitted). -/
structure FrequencyStatsOut where
  avg_daily : ℚ
  total_days : ℕ
  total_entries : ℕ
deriving DecidableEq

/-- `_calculate_frequency_stats(df)` restricted to the fields above. -/
def calculateFrequencyStats (bms : List BowelMovementData) :
    FrequencyStatsOut :=
  { avg_daily := avgDaily bms
    total_days := (dailyCounts bms).length
    total_entries := bms.length }

/-! ## Health score
(`calculate_health_score`, health_assessor.py lines 23-78;
`calculate_frequency_score`, health_metrics.py lines 56-90) -/

/-- The `HealthScore` response model. -/
structure HealthScore where
  overall_score : ℚ
  bristol_score : ℚ
  frequency_score : ℚ
  pain_score : ℚ
  satisfaction_score : ℚ
  trend : String
deriving DecidableEq

/-- The degenerate score object returned for an empty record list
(health_assessor.py lines 40-48). -/
def degenerateHealthScore : HealthScore :=
  { overall_score := 0, bristol_score := 0, frequency_score := 0,
    pain_score := 100, satisfaction_score := 50, trend := "stable" }

/-- `calculate_health_score`: the empty-input guard returns the degenerate
object before any component score is computed.  The non-empty branch
combines component scores whose inconsistency penalties take real square
roots; it is abstracted as the `nonEmptyScore` argument, which the guard
never consults on empty input. -/
def calculateHealthScoreWith
    (nonEmptyScore : List BowelMovementData → HealthScore)
    (bms : List BowelMovementData) : HealthScore :=
  if bms.isEmpty then degenerateHealthScore else nonEmptyScore bms

/-- Default component weights of `calculate_overall_health_score`
(health_metrics.py lines 160-165): bristol 0.4, frequency 0.3, pain 0.2,
satisfaction 0.1. -/
def overallWeighted (bristol frequency pain satisfaction : ℚ) : ℚ :=
  bristol * (2/5) + frequency * (3/10) + pain * (1/5) + satisfaction * (1/10)

/-- Base score of `calculate_frequency_score` (health_metrics.py lines
66-84), before the consistency-penalty factor `1 - min(0.3, cv * 0.5)`
multiplies it.  The factor takes a real square root and does not change
which branch is selected, which is all the analysed claim concerns. -/
def frequencyBaseScore (freqs : List ℚ) : ℚ :=
  if freqs.isEmpty then 0
  else if 1/2 ≤ meanQ freqs ∧ meanQ freqs ≤ 3 then 100
  else if meanQ freqs < 1/2 then max 0 (100 * (meanQ freqs / (1/2)))
  else max 0 (100 * (1 - (meanQ freqs - 3) / 3))

/-! ## Recommender frequency rules
(`_generate_frequency_recommendations`, recommender.py lines 206-243;
`_identify_frequency_risks`, recommender.py lines 397-430) -/

/-- A generated recommendation (random ids and prose omitted). -/
structure Recommendation where
  category : String
  title : String
  priority : String
  confidence : ℚ
deriving DecidableEq

/-- A generated risk factor. -/
structure RiskFactor where
  factor : String
  severity : String
  prevalence : ℚ
deriving DecidableEq

/-- `_generate_frequency_recommendations`, fed the `avg_daily` field of the
analysis result. -/
def generateFrequencyRecommendations (avg_daily : ℚ) : List Recommendation :=
  if avg_daily < 1/2 then
    [{ category := "lifestyle", title := "Establish Regular Bathroom Routine",
       priority := "medium", confidence := 7/10 }]
  else if 3 < avg_daily then
    [{ category := "medical", title := "Monitor Frequent Bowel Movements",
       priority := "medium", confidence := 3/5 }]
  else []

/-- `_identify_frequency_risks`, fed the `avg_daily` field of the analysis
result. -/
def identifyFrequencyRisks (avg_daily : ℚ) : List RiskFactor :=
  if avg_daily < 3/10 then
    [{ factor := "severe_constipation", severity := "high", prevalence := 1 }]
  else if 5 < avg_daily then
    [{ factor := "excessive_frequency", severity := "medium", prevalence := 1 }]
  else []

/-! ## Report assembly
(`analyze_comprehensive_patterns`, analyzer.py lines 29-99) -/

/-- The Bristol-analysis fields the claims touch (descriptions, most-common
lookup and the health-indicator label are plain projections of the same
distribution and feed no analysed claim). -/
structure BristolAnalysisOut where
  distribution : List (ℤ × ℕ)
  percentages : List (ℤ × ℚ)
  trend : Option String
deriving DecidableEq

/-- `category_correlations`: one entry per distinct non-null meal category
in first-appearance order, keeping only categories that correlate. -/
def categoryCorrelations (bms : List BowelMovementData)
    (meals : List MealData) : List (String × MealCorrelation) :=
  (firstDedup (meals.filterMap (·.category))).filterMap (fun cat =>
    (calcMealCategoryCorrelation bms
      (meals.filter (·.category == some cat))).map (fun c => (cat, c)))

/-- `_analyze_meal_correlations` output (timing correlation sub-object feeds
no analysed claim and is omitted). -/
structure MealCorrelationsOut where
  category_correlations : List (String × MealCorrelation)
  trigger_foods : List TriggerFood
  beneficial_foods : List BeneficialFood
deriving DecidableEq

/-- The assembled analysis result, restricted to the sections the claims
touch. -/
structure AnalysisReport where
  bristol : BristolAnalysisOut
  frequency : FrequencyStatsOut
  meal_correlations : Option MealCorrelationsOut
  symptom_correlations : List (String × SymptomCorrelation)
deriving DecidableEq

/-- The meal-correlations sub-object of the report: absent when the meal
list is empty (main passes `None` then and the analyzer skips the section),
otherwise assembled from the category correlations and the
trigger/beneficial classification, whose bucket masks may raise. -/
def mealCorrelationsSection (bms : List BowelMovementData)
    (meals : List MealData) : Except String (Option MealCorrelationsOut) :=
  if meals.isEmpty then .ok none
  else
    match identifyTriggerBeneficialFoods bms meals with
    | .error e => .error e
    | .ok tb =>
      .ok (some { category_correlations := categoryCorrelations bms meals
                  trigger_foods := tb.1
                  beneficial_foods := tb.2 })

/-- `analyze_comprehensive_patterns(bowel_movements, meals, symptoms)`:
raises (`Except.error`) on an empty movement list, propagates the pandas
masking `ValueError` out of the meal-correlation step, and otherwise
assembles the report; empty meal/symptom lists disable the respective
correlation sub-objects rather than failing. -/
def analyzeComprehensivePatterns (bms : List BowelMovementData)
    (meals : List MealData) (syms : List SymptomData) :
    Except String AnalysisReport :=
  if bms.isEmpty then .error "No bowel movement data provided"
  else
    match mealCorrelationsSection bms meals with
    | .error e => .error e
    | .ok mc =>
      .ok
        { bristol :=
            { distribution := bristolDistribution (bms.map (·.bristol_type))
              percentages := bristolPercentages (bms.map (·.bristol_type))
              trend := bristolTrend (bms.map (·.bristol_type)) }
          frequency := calculateFrequencyStats bms
          meal_correlations := mc
          symptom_correlations :=
            if syms.isEmpty then [] else analyzeSymptomCorrelations bms syms }

/-! ## Validation and the analyze entry point
(`DataValidator.validate_analysis_request`, validators.py lines 44-279;
`analyze_patterns`, main.py lines 180-325) -/

/-- The analysis request after schema binding (`AnalysisRequest`,
models/requests.py); `meal_time`, `created_at` and `severity` are required
by the schema, while `meals` and `symptoms` are optional lists defaulting
to `None`, so an absent key is `none`, distinct from an empty list. -/
structure AnalysisRequest where
  entries : List BowelMovementData
  meals : Option (List MealData) := none
  symptoms : Option (List SymptomData) := none

/-- The errors `validate_analysis_request` can accumulate, tagged with the
data each message interpolates.  Warnings never affect validity and are not
modelled.  The "meals without meal times" error cannot fire: `meal_time` is
a required datetime in the request schema and datetimes are always truthy. -/
inductive ValidationError where
  | noEntries
  | tooManyEntries (n : ℕ)
  | futureTimestamps (n : ℕ)
  | invalidBristolTypes (n : ℕ)
  | invalidPain (v : ℤ)
  | invalidStrain (v : ℤ)
  | invalidSatisfaction (v : ℤ)
  | invalidSpicyLevels (n : ℕ)
  | invalidSeverity (n : ℕ)
deriving DecidableEq

/-- Entry-count checks (validators.py lines 57-63);
`max_entries_per_request = 1000`. -/
def entryCountErrors (entries : List BowelMovementData) :
    List ValidationError :=
  if entries.length = 0 then [.noEntries]
  else if 1000 < entries.length then [.tooManyEntries entries.length]
  else []

/-- `_validate_time_range` errors (lines 103-138): only future timestamps
are fatal, and the check runs only when entries exist. -/
def timeRangeErrors (now : ℤ) (entries : List BowelMovementData) :
    List ValidationError :=
  if entries.isEmpty then []
  else if (entries.filter (fun e => decide (now < e.created_at))).isEmpty then []
  else [.futureTimestamps
    (entries.filter (fun e => decide (now < e.created_at))).length]

/-- `_validate_bristol_types` errors (lines 140-155): one error counting all
entries outside 1-7. -/
def bristolErrors (entries : List BowelMovementData) : List ValidationError :=
  if (entries.filter (fun e =>
      decide (e.bristol_type < 1) || decide (7 < e.bristol_type))).isEmpty
  then []
  else [.invalidBristolTypes (entries.filter (fun e =>
    decide (e.bristol_type < 1) || decide (7 < e.bristol_type))).length]

/-- `_validate_scores` errors (lines 170-191): per entry, in order, an error
for each present pain/strain/satisfaction value outside 1-10. -/
def scoreErrors (entries : List BowelMovementData) : List ValidationError :=
  entries.flatMap (fun e =>
    (match e.pain with
     | some p => if p < 1 ∨ 10 < p then [.invalidPain p] else []
     | none => []) ++
    (match e.strain with
     | some s => if s < 1 ∨ 10 < s then [.invalidStrain s] else []
     | none => []) ++
    (match e.satisfaction with
     | some s => if s < 1 ∨ 10 < s then [.invalidSatisfaction s] else []
     | none => []))

/-- `_validate_meals` errors (lines 205-226): one error counting the meals
whose present `spicy_level` is outside 1-10 (the missing-meal-time error is
unreachable, see `ValidationError`). -/
def mealErrors (meals : List MealData) : List ValidationError :=
  if (meals.filter (fun m =>
      match m.spicy_level with
      | some s => decide (s < 1) || decide (10 < s)
      | none => false)).isEmpty
  then []
  else [.invalidSpicyLevels (meals.filter (fun m =>
    match m.spicy_level with
    | some s => decide (s < 1) || decide (10 < s)
    | none => false)).length]

/-- `_validate_symptoms` errors (lines 241-255): one error counting the
symptoms whose severity is outside 1-10. -/
def symptomErrors (syms : List SymptomData) : List ValidationError :=
  if (syms.filter (fun s =>
      decide (s.severity < 1) || decide (10 < s.severity))).isEmpty
  then []
  else [.invalidSeverity (syms.filter (fun s =>
    decide (s.severity < 1) || decide (10 < s.severity))).length]

/-- The meal section of the validator runs under `if request.meals:`, which
is falsy — so the section is skipped — both when the field is `None` and
when the list is empty. -/
def guardedMealErrors (meals : Option (List MealData)) :
    List ValidationError :=
  match meals with
  | some ms => if ms.isEmpty then [] else mealErrors ms
  | none => []

/-- The symptom section of the validator, guarded by `if request.symptoms:`
the same way. -/
def guardedSymptomErrors (syms : Option (List SymptomData)) :
    List ValidationError :=
  match syms with
  | some ss => if ss.isEmpty then [] else symptomErrors ss
  | none => []

/-- `validate_analysis_request`, errors only, in accumulation order;
the meal/symptom sections run only when the respective optional list is
present and non-empty, which changes no outcome since both sections produce
no error on an empty list. -/
def validateAnalysisRequest (now : ℤ) (req : AnalysisRequest) :
    List ValidationError :=
  entryCountErrors req.entries ++
  timeRangeErrors now req.entries ++
  bristolErrors req.entries ++
  scoreErrors req.entries ++
  guardedMealErrors req.meals ++
  guardedSymptomErrors req.symptoms

/-- A failed `/analyze` call: a 400 from validation, a 400 via the
`ValueError` handler (main.py lines 315-319), or a 500 via the generic
handler (main.py lines 320-325), reached when the conversion loops iterate
an absent (`None`) `meals` or `symptoms` field and raise `TypeError`. -/
inductive AnalyzeError where
  | validation (errors : List ValidationError)
  | valueError (msg : String)
  | internalError (msg : String)
deriving DecidableEq

/-- `analyze_patterns(request)` without the cache layer: validate and
reject on any error (400); then the conversion list comprehensions iterate
`request.meals` and `request.symptoms` unconditionally, so an absent
(`None`) list raises `TypeError`, caught only by the generic handler (500);
otherwise run the comprehensive analysis — whose `ValueError`s, including
the pandas masking error, become 400s — and return the report. -/
def analyze (now : ℤ) (req : AnalysisRequest) :
    Except AnalyzeError AnalysisReport :=
  if (validateAnalysisRequest now req).isEmpty then
    if req.meals.isNone || req.symptoms.isNone then
      .error (.internalError "NoneType object is not iterable")
    else
      match analyzeComprehensivePatterns req.entries (req.meals.getD [])
          (req.symptoms.getD []) with
      | .ok r => .ok r
      | .error m => .error (.valueError m)
  else .error (.validation (validateAnalysisRequest now req))

/-! ## Spec-shaped reformulations used by the claims -/

/-- The meals of a group that have at least one record in their digestion
window (the meals whose window contributes a score to the accumulators). -/
def qualifyingMeals (bms : List BowelMovementData) (meals : List MealData) :
    List MealData :=
  meals.filter (fun m => !(windowRecords bms m.meal_time).isEmpty)

/-- Average primary scale over one meal's digestion window. -/
def windowBristolAvg (bms : List BowelMovementData) (m : MealData) : ℚ :=
  meanZ ((windowRecords bms m.meal_time).map (·.bristol_type))

/-- Average pain over the non-null pains of one meal's digestion window
(`none` is the `NaN` of an all-null window). -/
def windowPainAvg (bms : List BowelMovementData) (m : MealData) : Option ℚ :=
  dropnaMean ((windowRecords bms m.meal_time).map (·.pain))

/-- Average satisfaction over the non-null satisfactions of one meal's
digestion window. -/
def windowSatisfactionAvg (bms : List BowelMovementData) (m : MealData) :
    Option ℚ :=
  dropnaMean ((windowRecords bms m.meal_time).map (·.satisfaction))

/-- An optional 1-10 score that is absent or in range. -/
def scoreInRange : Option ℤ → Prop
  | none => True
  | some v => 1 ≤ v ∧ v ≤ 10

instance : DecidablePred scoreInRange := fun o =>
  match o with
  | none => .isTrue trivial
  | some v => inferInstanceAs (Decidable (1 ≤ v ∧ v ≤ 10))

/-- The well-formedness conditions under which `validate_analysis_request`
reports no error: non-empty entries, at most 1000 of them, no future
timestamps, every Bristol type in 1-7, every present
pain/strain/satisfaction score in 1-10, every spicy level of a present meal
list in 1-10 and every severity of a present symptom list in 1-10. -/
def wellFormedRequest (now : ℤ) (req : AnalysisRequest) : Prop :=
  req.entries ≠ [] ∧
  req.entries.length ≤ 1000 ∧
  (∀ e ∈ req.entries, e.created_at ≤ now) ∧
  (∀ e ∈ req.entries, 1 ≤ e.bristol_type ∧ e.bristol_type ≤ 7) ∧
  (∀ e ∈ req.entries, scoreInRange e.pain ∧ scoreInRange e.strain ∧
    scoreInRange e.satisfaction) ∧
  (∀ m ∈ req.meals.getD [], scoreInRange m.spicy_level) ∧
  (∀ s ∈ req.symptoms.getD [], 1 ≤ s.severity ∧ s.severity ≤ 10)

/-! ## Concrete inputs used to settle the claims -/

/-- A plain ideal-scale record at a given timestamp. -/
def bmAt (t : ℤ) : BowelMovementData := { bristol_type := 4, created_at := t }

/-- Movement records for the aggregation-shape counterexample: one record in
the first meal's window only, three in the second meal's window only. -/
def c2bms : List BowelMovementData :=
  [{ bristol_type := 2, created_at := 360 },
   { bristol_type := 4, created_at := 10360 },
   { bristol_type := 4, created_at := 10361 },
   { bristol_type := 4, created_at := 10362 }]

/-- Two meals of the same category with disjoint digestion windows. -/
def c2meals : List MealData :=
  [{ meal_time := 0, category := some "dinner" },
   { meal_time := 10000, category := some "dinner" }]

/-- One severely loose record six hours after the meal below. -/
def c3bms : List BowelMovementData :=
  [{ bristol_type := 7, created_at := 360 }]

/-- A meal of spicy level exactly 6, with every boolean flag set so the
bucket masks are defined: in the source's spicy bucket (`> 5`), outside the
claim's (`> 6`). -/
def c3meals : List MealData :=
  [{ meal_time := 0, spicy_level := some 6, fiber_rich := some false,
     dairy := some false, gluten := some false }]

/-- A single constipated record in the digestion window of the meal below. -/
def c4bms : List BowelMovementData :=
  [{ bristol_type := 1, created_at := 360 }]

/-- One dairy meal with every boolean flag set; its bucket has a single
windowed record. -/
def c4meals : List MealData :=
  [{ meal_time := 0, fiber_rich := some false, dairy := some true,
     gluten := some false }]

/-- Five records far outside the digestion window of `c4meals` (the pattern
detector requires at least five movements to run at all). -/
def c4farBms : List BowelMovementData :=
  [bmAt 100000, bmAt 100001, bmAt 100002, bmAt 100003, bmAt 100004]

/-- One record half an hour after the symptom below. -/
def c5bms : List BowelMovementData :=
  [{ bristol_type := 4, created_at := 130 }]

/-- A single occurrence of a bloating symptom. -/
def c5syms : List SymptomData :=
  [{ type := "bloating", severity := 5, created_at := 100 }]

/-- A fully in-range entry (used 1001 times below). -/
def validEntry : BowelMovementData :=
  { bristol_type := 4, pain := some 3, created_at := 0 }

/-- A request of 1001 in-range entries: every record is valid yet the
request exceeds `max_entries_per_request`. -/
def c8req : AnalysisRequest :=
  { entries := List.replicate 1001 validEntry }

/-- A small well-formed request with present (empty) meal and symptom
lists. -/
def c8goodReq : AnalysisRequest :=
  { entries := [validEntry, { bristol_type := 3, created_at := 50 }],
    meals := some [], symptoms := some [] }

/-- A request whose only flaw is one out-of-range Bristol type. -/
def c8badBristolReq : AnalysisRequest :=
  { entries := [validEntry, { bristol_type := 9, created_at := 50 }] }

/-- A well-formed request that omits the meal and symptom lists (the schema
default `None`). -/
def c8noneReq : AnalysisRequest := { entries := [validEntry] }

/-- A well-formed request whose one meal leaves its boolean flags unset. -/
def c8maskReq : AnalysisRequest :=
  { entries := [validEntry], meals := some [{ meal_time := 0 }],
    symptoms := some [] }

/-- Seven records, one of each category: each percentage rounds up to
14.29, so the seven percentages sum to 100.03. -/
def c9scales : List ℤ := [1, 2, 3, 4, 5, 6, 7]

/-! ## Helper lemmas -/

/-- Filtering a replicated list with a predicate its element fails leaves
nothing. -/
theorem filter_replicate_of_neg {α : Type} (p : α → Bool) (a : α)
    (h : p a = false) (n : ℕ) : (List.replicate n a).filter p = [] := by
  induction n with
  | zero => rfl
  | succ n ih => simp [List.replicate_succ, List.filter_cons, h, ih]

/-- Flat-mapping a nil-producing function over a replicated list leaves
nothing. -/
theorem flatMap_replicate_of_nil {α β : Type} (f : α → List β) (a : α)
    (h : f a = []) (n : ℕ) : (List.replicate n a).flatMap f = [] := by
  induction n with
  | zero => rfl
  | succ n ih => simp [List.replicate_succ, h, ih]

/-- A guarded `filterMap` is a `filter` followed by a `map`. -/
theorem filterMap_guard_eq {α β : Type} (p : α → Bool) (f : α → β)
    (l : List α) :
    (l.filterMap (fun a => if p a then none else some (f a))) =
      (l.filter (fun a => !p a)).map f := by
  induction l with
  | nil => rfl
  | cons x xs ih =>
    by_cases h : p x <;> simp [List.filterMap_cons, List.filter_cons, h, ih]

/-- The per-meal Bristol averages are the window averages of the qualifying
meals in order. -/
theorem perMealBristolAvgs_eq (bms : List BowelMovementData)
    (meals : List MealData) :
    perMealBristolAvgs bms meals =
      (qualifyingMeals bms meals).map (windowBristolAvg bms) := by
  unfold perMealBristolAvgs qualifyingMeals windowBristolAvg
  exact filterMap_guard_eq _ _ _

/-- The per-meal pain averages are the window pain averages of the
qualifying meals in order. -/
theorem perMealPainAvgs_eq (bms : List BowelMovementData)
    (meals : List MealData) :
    perMealOptAvgs (·.pain) bms meals =
      (qualifyingMeals bms meals).map (windowPainAvg bms) := by
  unfold perMealOptAvgs qualifyingMeals windowPainAvg
  exact filterMap_guard_eq _ _ _

/-- The per-meal satisfaction averages are the window satisfaction averages
of the qualifying meals in order. -/
theorem perMealSatisfactionAvgs_eq (bms : List BowelMovementData)
    (meals : List MealData) :
    perMealOptAvgs (·.satisfaction) bms meals =
      (qualifyingMeals bms meals).map (windowSatisfactionAvg bms) := by
  unfold perMealOptAvgs qualifyingMeals windowSatisfactionAvg
  exact filterMap_guard_eq _ _ _

/-! ## C1: the primary-scale trend gate -/

/-- C1, counterexample.  With exactly 9 records the trend field is `None`,
not `"stable"`; and with exactly 10 records the source still does not
attempt the first-third/last-third computation (its gate is `len(df) > 10`),
even on data whose thirds differ sharply. -/
theorem c1_counterexample :
    bristolTrend [1, 1, 1, 1, 1, 1, 1, 1, 1] ≠ some "stable" ∧
    bristolTrend [1, 1, 1, 4, 4, 4, 4, 4, 4, 4] = none := by decide

/-- C1, amended: with at most 10 records (9 and 10 included) the trend is
`None`; with 11 or more the first-third/last-third distance-from-ideal
computation is attempted and its result returned. -/
theorem c1_amended (l : List ℤ) :
    (l.length ≤ 10 → bristolTrend l = none) ∧
    (10 < l.length → bristolTrend l = some (trendOfThirds l)) := by
  constructor
  · intro h
    have h' : ¬ 10 < l.length := Nat.not_lt.mpr h
    simp [bristolTrend, h']
  · intro h
    simp [bristolTrend, trendOfThirds, h]

unseal Rat.add Rat.mul Rat.inv Rat.sub in
/-- C1, witness: both branches of `c1_amended` at concrete inputs. -/
theorem c1_witness :
    (([1, 1, 1, 1, 1, 1, 1, 1, 1] : List ℤ).length ≤ 10 ∧
      bristolTrend [1, 1, 1, 1, 1, 1, 1, 1, 1] = none) ∧
    (10 < ([1, 1, 1, 4, 4, 4, 4, 4, 4, 4, 4] : List ℤ).length ∧
      bristolTrend [1, 1, 1, 4, 4, 4, 4, 4, 4, 4, 4] = some "improving") := by
  refine ⟨⟨by decide, (c1_amended _).1 (by decide)⟩, ⟨by decide, ?_⟩⟩
  rw [(c1_amended _).2 (by decide)]
  decide

/-! ## C6: the digestion window is closed -/

/-- C6: the digestion window is the closed interval
`[meal + 6h, meal + 48h]`: membership in a meal's downstream records is
exactly presence in the record list plus the two inclusive bounds, and
concretely the records at +6h and +48h are kept while +5h59m and +48h01m
are dropped. -/
theorem c6_confirmed :
    (∀ mealTime t : ℤ, inDigestionWindow mealTime t = true ↔
      mealTime + 360 ≤ t ∧ t ≤ mealTime + 2880) ∧
    (∀ (bms : List BowelMovementData) (mealTime : ℤ)
      (bm : BowelMovementData),
      bm ∈ windowRecords bms mealTime ↔
        bm ∈ bms ∧ mealTime + 360 ≤ bm.created_at ∧
          bm.created_at ≤ mealTime + 2880) ∧
    windowRecords [bmAt 360, bmAt 2880, bmAt 359, bmAt 2881] 0 =
      [bmAt 360, bmAt 2880] := by
  refine ⟨?_, ?_, by decide⟩
  · intro mt t
    simp [inDigestionWindow]
  · intro bms mt bm
    simp [windowRecords, List.mem_filter, inDigestionWindow]

/-! ## C7: the degenerate health score -/

/-- C7: on an empty record list the health score is exactly the degenerate
object (overall 0, bristol 0, frequency 0, pain 100, satisfaction 50,
trend "stable") whatever the non-empty branch computes, and its overall 0
is not the default-weighted combination of its own component values
(which would be 25). -/
theorem c7_confirmed :
    (∀ f, calculateHealthScoreWith f [] = degenerateHealthScore) ∧
    degenerateHealthScore =
      { overall_score := 0, bristol_score := 0, frequency_score := 0,
        pain_score := 100, satisfaction_score := 50, trend := "stable" } ∧
    degenerateHealthScore.overall_score ≠
      overallWeighted degenerateHealthScore.bristol_score
        degenerateHealthScore.frequency_score
        degenerateHealthScore.pain_score
        degenerateHealthScore.satisfaction_score := by
  refine ⟨fun f => rfl, rfl, ?_⟩
  unfold overallWeighted degenerateHealthScore
  norm_num

/-! ## Counterexamples for C2, C3, C4, C5, C9 -/

unseal Rat.add Rat.mul Rat.inv Rat.sub in
/-- C2, counterexample: with one qualifying record under the first meal and
three under the second, the source reports the mean of the two per-meal
averages (3), not the mean over the pooled multiset of four records (3.5). -/
theorem c2_counterexample :
    (calcMealCategoryCorrelation c2bms c2meals).map
      (·.avg_bristol_scores) = some 3 ∧
    pooledAvgBristol c2bms c2meals = some (7/2) ∧ (3 : ℚ) ≠ 7/2 := by decide

unseal Rat.add Rat.mul Rat.inv Rat.sub in
/-- C3, counterexample: a meal of spicy level exactly 6, its boolean flags
all set so the bucket masks are defined, with one downstream record of
scale 7.  The source puts it in the spicy bucket (`> 5`) and reports a
spicy trigger; under the claim's thresholds (`> 6`) every bucket is empty
and no entry exists. -/
theorem c3_counterexample :
    identifyTriggerBeneficialFoods c3bms c3meals =
      .ok ([{ type := "spicy", avg_bristol := 7, avg_pain := none,
              severity := "medium" }], []) ∧
    identifyTriggerBeneficialFoodsClaim c3bms c3meals = ([], []) := by
  exact ⟨rfl, by decide⟩

unseal Rat.add Rat.mul Rat.inv Rat.sub in
/-- C4, counterexample: the analyzer's trigger/beneficial classification has
no minimum sample: a dairy bucket (flags all set, masks defined) whose
windows hold a single record is classified as a trigger rather than
excluded. -/
theorem c4_counterexample :
    (windowRecords c4bms 0).length = 1 ∧
    identifyTriggerBeneficialFoods c4bms c4meals =
      .ok ([{ type := "dairy", avg_bristol := 1, avg_pain := none,
              severity := "medium" }], []) := by
  exact ⟨by decide, rfl⟩

unseal Rat.add Rat.mul Rat.inv Rat.sub in
/-- C5, counterexample: the analyzer's symptom correlation has no minimum
occurrence count: a symptom type occurring once still produces a
correlation entry. -/
theorem c5_counterexample :
    (c5syms.filter (·.type == "bloating")).length = 1 ∧
    analyzeSymptomCorrelations c5bms c5syms =
      [("bloating", { avg_severity := 5, avg_bristol_with_symptoms := some 4,
                      avg_pain_with_symptoms := some none })] := by decide

unseal Rat.add Rat.mul Rat.inv Rat.sub in
/-- C9, counterexample: seven records of the seven categories round each
percentage up to 14.29, so the percentages sum to 100.03, outside the
claimed ±0.02 tolerance. -/
theorem c9_counterexample :
    percentageSum c9scales = 10003/100 ∧
    ¬ |percentageSum c9scales - 100| ≤ 1/50 := by decide

/-! ## C2: shape of the meal-category aggregation -/

/-- C2, amended: when some meal of the category has a record in its
digestion window, the reported correlation is the unweighted mean of the
per-meal window averages — each qualifying meal contributes the average over
its own window exactly once, whatever that window's size — and likewise for
pain and satisfaction through the `NaN`-propagating mean.  It is not the
mean over the pooled multiset of windowed records. -/
theorem c2_amended (bms : List BowelMovementData) (meals : List MealData)
    (h : qualifyingMeals bms meals ≠ []) :
    calcMealCategoryCorrelation bms meals = some
      { avg_bristol_scores :=
          meanQ ((qualifyingMeals bms meals).map (windowBristolAvg bms))
        avg_pain_scores :=
          nanMean ((qualifyingMeals bms meals).map (windowPainAvg bms))
        avg_satisfaction_scores :=
          nanMean ((qualifyingMeals bms meals).map
            (windowSatisfactionAvg bms)) } := by
  have hm : meals.isEmpty = false := by
    rcases meals with _ | ⟨m, ms⟩
    · exact absurd rfl h
    · rfl
  have hb : (perMealBristolAvgs bms meals).isEmpty = false := by
    rw [perMealBristolAvgs_eq]
    simpa [List.isEmpty_iff] using h
  simp only [calcMealCategoryCorrelation, hm, hb, Bool.false_eq_true,
    if_false, perMealBristolAvgs_eq, perMealPainAvgs_eq,
    perMealSatisfactionAvgs_eq]
  rw [perMealBristolAvgs_eq] at hb
  simp [hb]

unseal Rat.add Rat.mul Rat.inv Rat.sub in
/-- C2, witness: `c2_amended` at the concrete two-meal input. -/
theorem c2_witness :
    qualifyingMeals c2bms c2meals ≠ [] ∧
    calcMealCategoryCorrelation c2bms c2meals = some
      { avg_bristol_scores :=
          meanQ ((qualifyingMeals c2bms c2meals).map (windowBristolAvg c2bms))
        avg_pain_scores :=
          nanMean ((qualifyingMeals c2bms c2meals).map (windowPainAvg c2bms))
        avg_satisfaction_scores :=
          nanMean ((qualifyingMeals c2bms c2meals).map
            (windowSatisfactionAvg c2bms)) } :=
  ⟨by decide, c2_amended c2bms c2meals (by decide)⟩

/-! ## C3: trigger/beneficial thresholds -/

/-- A bucket meeting the beneficial condition can never meet the trigger
condition, so the source's `elif` is immaterial. -/
theorem beneficial_excludes_trigger (c : MealCorrelation)
    (h : 3 ≤ c.avg_bristol_scores ∧ c.avg_bristol_scores ≤ 4 ∧
      nanFalsyOrLE 2 c.avg_pain_scores) :
    ¬ (c.avg_bristol_scores ≤ 2 ∨ 6 ≤ c.avg_bristol_scores ∨
      optPainGT 5 c.avg_pain_scores) := by
  obtain ⟨h3, h4, hp⟩ := h
  rintro (hb | hb | hb)
  · linarith
  · linarith
  · cases hcp : c.avg_pain_scores with
    | none => rw [hcp] at hb; exact absurd hb (by simp [optPainGT])
    | some q =>
      rw [hcp] at hb hp
      simp only [optPainGT, Bool.and_eq_true, decide_eq_true_eq] at hb
      simp only [nanFalsyOrLE, Bool.or_eq_true, decide_eq_true_eq] at hp
      rcases hp with h0 | h2
      · exact hb.1 h0
      · linarith [hb.2]

/-- One loop iteration of the analyzer's classification equals the two
declarative option classifiers. -/
theorem classifyFoodGroup_eq (bms : List BowelMovementData) (name : String)
    (ms : List MealData) :
    classifyFoodGroup bms name ms =
      (((calcMealCategoryCorrelation bms ms).bind (triggerEntryOf name)).toList,
       ((calcMealCategoryCorrelation bms ms).bind
         (beneficialEntryOf name)).toList) := by
  by_cases hms : ms.isEmpty
  · have hc : calcMealCategoryCorrelation bms ms = none := by
      unfold calcMealCategoryCorrelation
      simp [hms]
    simp [classifyFoodGroup, hms, hc]
  · cases hc : calcMealCategoryCorrelation bms ms with
    | none => simp [classifyFoodGroup, hms, hc]
    | some c =>
      by_cases ht : (c.avg_bristol_scores ≤ 2 ∨ 6 ≤ c.avg_bristol_scores ∨
          optPainGT 5 c.avg_pain_scores)
      · have hbf : ¬ (3 ≤ c.avg_bristol_scores ∧ c.avg_bristol_scores ≤ 4 ∧
            nanFalsyOrLE 2 c.avg_pain_scores) :=
          fun hbc => beneficial_excludes_trigger c hbc ht
        simp [classifyFoodGroup, hms, hc, triggerEntryOf, beneficialEntryOf,
          ht, hbf]
      · by_cases hbf : (3 ≤ c.avg_bristol_scores ∧ c.avg_bristol_scores ≤ 4 ∧
            nanFalsyOrLE 2 c.avg_pain_scores)
        · simp [classifyFoodGroup, hms, hc, triggerEntryOf, beneficialEntryOf,
            ht, hbf]
        · simp [classifyFoodGroup, hms, hc, triggerEntryOf, beneficialEntryOf,
            ht, hbf]

/-- The analyzer's accumulation over any bucket list equals the pair of
declarative filter-maps. -/
theorem foldr_classify_eq (bms : List BowelMovementData)
    (gs : List (String × List MealData)) :
    gs.foldr (fun g acc =>
      let r := classifyFoodGroup bms g.1 g.2
      (r.1 ++ acc.1, r.2 ++ acc.2)) ([], []) =
    (gs.filterMap (fun g =>
       (calcMealCategoryCorrelation bms g.2).bind (triggerEntryOf g.1)),
     gs.filterMap (fun g =>
       (calcMealCategoryCorrelation bms g.2).bind (beneficialEntryOf g.1))) := by
  induction gs with
  | nil => rfl
  | cons g gs ih =>
    simp only [List.foldr_cons]
    rw [ih, classifyFoodGroup_eq]
    simp only [List.filterMap_cons]
    cases (calcMealCategoryCorrelation bms g.2).bind (triggerEntryOf g.1) <;>
      cases (calcMealCategoryCorrelation bms g.2).bind (beneficialEntryOf g.1) <;>
      simp

/-- The pandas mask selection succeeds on a flag column with no missing
value, keeping the `True` rows. -/
theorem maskSelect_ok (flag : MealData → Option Bool) (meals : List MealData)
    (h : ∀ m ∈ meals, (flag m).isSome) :
    maskSelect flag meals =
      .ok (meals.filter (fun m => flag m == some true)) := by
  unfold maskSelect
  rw [if_pos (by simpa [List.all_eq_true] using h)]

/-- The pandas mask selection raises on a flag column with a missing
value. -/
theorem maskSelect_error (flag : MealData → Option Bool)
    (meals : List MealData) (h : ¬ ∀ m ∈ meals, (flag m).isSome) :
    maskSelect flag meals =
      .error "Cannot mask with non-boolean array containing NA / NaN values" := by
  unfold maskSelect
  rw [if_neg (by simpa [List.all_eq_true] using h)]

/-- With every boolean flag present, the bucket dict is built and is the
four filters. -/
theorem analyzerFoodGroups_ok (meals : List MealData)
    (h : ∀ m ∈ meals, (m.dairy).isSome ∧ (m.gluten).isSome ∧
      (m.fiber_rich).isSome) :
    analyzerFoodGroups meals = .ok
      [("spicy", meals.filter (fun m => decide (5 < m.spicy_level.getD 0))),
       ("dairy", meals.filter (fun m => m.dairy == some true)),
       ("gluten", meals.filter (fun m => m.gluten == some true)),
       ("fiber_rich", meals.filter (fun m => m.fiber_rich == some true))] := by
  unfold analyzerFoodGroups
  rw [maskSelect_ok _ _ (fun m hm => (h m hm).1),
    maskSelect_ok _ _ (fun m hm => (h m hm).2.1),
    maskSelect_ok _ _ (fun m hm => (h m hm).2.2)]

/-- With some boolean flag missing, building the bucket dict raises the
masking error. -/
theorem analyzerFoodGroups_error (meals : List MealData)
    (h : ¬ ∀ m ∈ meals, (m.dairy).isSome ∧ (m.gluten).isSome ∧
      (m.fiber_rich).isSome) :
    analyzerFoodGroups meals =
      .error "Cannot mask with non-boolean array containing NA / NaN values" := by
  unfold analyzerFoodGroups
  by_cases hd : ∀ m ∈ meals, (m.dairy).isSome
  · rw [maskSelect_ok _ _ hd]
    by_cases hg : ∀ m ∈ meals, (m.gluten).isSome
    · rw [maskSelect_ok _ _ hg]
      have hf : ¬ ∀ m ∈ meals, (m.fiber_rich).isSome := by
        intro hf
        exact h (fun m hm => ⟨hd m hm, hg m hm, hf m hm⟩)
      rw [maskSelect_error _ _ hf]
    · rw [maskSelect_error _ _ hg]
  · rw [maskSelect_error _ _ hd]

/-- The trigger/beneficial identification propagates the masking error. -/
theorem identifyTriggerBeneficialFoods_error (bms : List BowelMovementData)
    (meals : List MealData)
    (h : ¬ ∀ m ∈ meals, (m.dairy).isSome ∧ (m.gluten).isSome ∧
      (m.fiber_rich).isSome) :
    identifyTriggerBeneficialFoods bms meals =
      .error "Cannot mask with non-boolean array containing NA / NaN values" := by
  unfold identifyTriggerBeneficialFoods
  rw [analyzerFoodGroups_error meals h]

/-- The trigger/beneficial identification succeeds whenever every flag is a
real boolean. -/
theorem identifyTriggerBeneficialFoods_ok (bms : List BowelMovementData)
    (meals : List MealData)
    (h : ∀ m ∈ meals, (m.dairy).isSome ∧ (m.gluten).isSome ∧
      (m.fiber_rich).isSome) :
    ∃ tb, identifyTriggerBeneficialFoods bms meals = .ok tb := by
  unfold identifyTriggerBeneficialFoods
  rw [analyzerFoodGroups_ok meals h]
  exact ⟨_, rfl⟩

/-- C3, amended: the bucket dict's boolean masks raise the pandas
`ValueError` when a dairy/gluten/fiber flag is missing, and that error
propagates; otherwise, with the source's actual thresholds — spicy bucket
`spicy_level > 5` (missing level read as 0), trigger exactly when windowed
avg-bristol ≤ 2 or ≥ 6 or avg-pain > 5 with severity "high" exactly when
avg-pain > 7, beneficial exactly when avg-bristol ∈ [3,4] and avg-pain is
falsy or ≤ 2 — the classification is precisely the declarative filter-map
over the bucket dict, independently of the source's `elif` ordering. -/
theorem c3_amended (bms : List BowelMovementData) (meals : List MealData) :
    identifyTriggerBeneficialFoods bms meals =
      (analyzerFoodGroups meals).map (fun gs =>
        (triggerFoodsAmended bms gs, beneficialFoodsAmended bms gs)) := by
  unfold identifyTriggerBeneficialFoods
  cases h : analyzerFoodGroups meals with
  | error e => rfl
  | ok gs => exact congrArg Except.ok (foldr_classify_eq bms gs)

/-! ## C4: the pattern detector's minimum sample -/

/-- A bucket with fewer than 3 related movements contributes nothing in the
pattern detector. -/
theorem bucketMealOutput_small (bms : List BowelMovementData)
    (g : String × List MealData)
    (h : (detectorRelated bms g.2).length < 3) :
    bucketMealOutput bms g = ([], []) := by
  by_cases hg : g.2.isEmpty
  · simp [bucketMealOutput, hg]
  · simp [bucketMealOutput, hg, h]

/-- A bucket's output is empty or carries the bucket's name everywhere. -/
theorem bucketMealOutput_cases (bms : List BowelMovementData)
    (g : String × List MealData) :
    bucketMealOutput bms g = ([], []) ∨
    ∃ pats corr, bucketMealOutput bms g = (pats, [(g.1, corr)]) ∧
      ∀ p ∈ pats, p.food_type = g.1 := by
  dsimp only [bucketMealOutput]
  split
  · exact Or.inl rfl
  · split
    · exact Or.inl rfl
    · right
      refine ⟨_, _, rfl, ?_⟩
      intro p hp
      repeat' split at hp
      all_goals simp_all

/-- Every entry a bucket contributes carries that bucket's name. -/
theorem bucketMealOutput_names (bms : List BowelMovementData)
    (g : String × List MealData) :
    (∀ p ∈ (bucketMealOutput bms g).1, p.food_type = g.1) ∧
    (∀ kv ∈ (bucketMealOutput bms g).2, kv.1 = g.1) := by
  rcases bucketMealOutput_cases bms g with h | ⟨pats, corr, h, hnm⟩ <;>
    rw [h]
  · simp
  · constructor
    · exact hnm
    · intro kv hkv
      simp only [List.mem_singleton] at hkv
      rw [hkv]

/-- In the detector's accumulation, a name all of whose buckets are below the
3-record minimum appears in no pattern and no correlation entry. -/
theorem foldr_meal_no_name (bms : List BowelMovementData)
    (gs : List (String × List MealData)) (name : String)
    (h : ∀ g ∈ gs, g.1 = name → (detectorRelated bms g.2).length < 3) :
    (∀ p ∈ (gs.foldr (fun g acc =>
        let r := bucketMealOutput bms g
        (r.1 ++ acc.1, r.2 ++ acc.2)) ([], [])).1, p.food_type ≠ name) ∧
    (∀ kv ∈ (gs.foldr (fun g acc =>
        let r := bucketMealOutput bms g
        (r.1 ++ acc.1, r.2 ++ acc.2)) ([], [])).2, kv.1 ≠ name) := by
  induction gs with
  | nil => simp
  | cons g gs ih =>
    have ihr := ih (fun g' hg' => h g' (List.mem_cons_of_mem g hg'))
    have hcons : g ∈ g :: gs := List.mem_cons.mpr (Or.inl rfl)
    constructor
    · intro p hp
      simp only [List.foldr_cons] at hp
      rcases List.mem_append.mp hp with hp | hp
      · by_cases hn : g.1 = name
        · rw [bucketMealOutput_small bms g (h g hcons hn)] at hp
          simp at hp
        · have := (bucketMealOutput_names bms g).1 p hp
          rw [this]
          exact hn
      · exact ihr.1 p hp
    · intro kv hkv
      simp only [List.foldr_cons] at hkv
      rcases List.mem_append.mp hkv with hkv | hkv
      · by_cases hn : g.1 = name
        · rw [bucketMealOutput_small bms g (h g hcons hn)] at hkv
          simp at hkv
        · have := (bucketMealOutput_names bms g).2 kv hkv
          rw [this]
          exact hn
      · exact ihr.2 kv hkv

/-- C4, amended: the fewer-than-3-records exclusion belongs to the pattern
detector's `_detect_meal_patterns`: there, a food-characteristic bucket
whose windows yield fewer than 3 related movements produces neither a
detected pattern nor a food-correlation entry.  (The analyzer's
trigger/beneficial identification has no such minimum; see the
counterexample.) -/
theorem c4_amended (bms : List BowelMovementData) (meals : List MealData)
    (name : String) (ms : List MealData)
    (out : List MealPattern × List (String × FoodCorrelationEntry))
    (hg : (name, ms) ∈ detectorMealGroups meals)
    (hlt : (detectorRelated bms ms).length < 3)
    (hout : detectMealPatterns bms meals = some out) :
    (∀ p ∈ out.1, p.food_type ≠ name) ∧ (∀ kv ∈ out.2, kv.1 ≠ name) := by
  have hnames : ∀ g ∈ detectorMealGroups meals, g.1 = name →
      (detectorRelated bms g.2).length < 3 := by
    intro g hgm hgn
    simp only [detectorMealGroups, List.mem_cons, List.not_mem_nil,
      or_false] at hgm hg
    rcases hgm with rfl | rfl | rfl | rfl <;>
      rcases hg with hg | hg | hg | hg <;>
      injection hg with hn hm <;> subst hn <;> subst hm <;>
      first
        | exact hlt
        | simp at hgn
  unfold detectMealPatterns at hout
  split at hout
  · exact absurd hout (by simp)
  · have hout' := Option.some.inj hout
    subst hout'
    exact foldr_meal_no_name bms (detectorMealGroups meals) name hnames

/-- C4, witness: `c4_amended` on the five-record, one-dairy-meal input whose
dairy bucket has no windowed record. -/
theorem c4_witness :
    detectMealPatterns c4farBms c4meals = some ([], []) ∧
    (∀ p ∈ ([] : List MealPattern), p.food_type ≠ "dairy") ∧
    (∀ kv ∈ ([] : List (String × FoodCorrelationEntry)), kv.1 ≠ "dairy") := by
  refine ⟨by decide, ?_, ?_⟩
  · exact (c4_amended c4farBms c4meals "dairy"
      (c4meals.filter (fun m => m.dairy == some true)) ([], [])
      (by decide) (by decide) (by decide)).1
  · exact (c4_amended c4farBms c4meals "dairy"
      (c4meals.filter (fun m => m.dairy == some true)) ([], [])
      (by decide) (by decide) (by decide)).2

/-! ## C5: symptom-correlation occurrence gates -/

/-- Membership in the dedup-with-seen-accumulator helper. -/
theorem mem_firstDedupAux {α : Type} [DecidableEq α] (seen l : List α)
    (a : α) : a ∈ firstDedupAux seen l ↔ a ∈ l ∧ a ∉ seen := by
  induction l generalizing seen with
  | nil => simp [firstDedupAux]
  | cons x xs ih =>
    by_cases hx : x ∈ seen
    · rw [firstDedupAux, if_pos hx, ih]
      constructor
      · rintro ⟨h1, h2⟩
        exact ⟨List.mem_cons.mpr (Or.inr h1), h2⟩
      · rintro ⟨h1, h2⟩
        rcases List.mem_cons.mp h1 with rfl | h1
        · exact absurd hx h2
        · exact ⟨h1, h2⟩
    · rw [firstDedupAux, if_neg hx]
      simp only [List.mem_cons, ih]
      constructor
      · rintro (rfl | ⟨h1, h2⟩)
        · exact ⟨Or.inl rfl, hx⟩
        · exact ⟨Or.inr h1, fun hs => h2 (Or.inr hs)⟩
      · rintro ⟨h1 | h1, h2⟩
        · exact Or.inl h1
        · by_cases hax : a = x
          · exact Or.inl hax
          · refine Or.inr ⟨h1, fun hs => ?_⟩
            rcases hs with h | h
            · exact hax h
            · exact h2 h

/-- `firstDedup` keeps exactly the elements of the list. -/
theorem mem_firstDedup {α : Type} [DecidableEq α] (l : List α) (a : α) :
    a ∈ firstDedup l ↔ a ∈ l := by
  rw [firstDedup, mem_firstDedupAux]
  simp

/-- C5, amended: the analyzer's symptom correlation produces an entry for
every symptom type present — even a single occurrence — while the
3-occurrence minimum belongs to the pattern detector's
`_detect_symptom_patterns`, where a type with fewer than 3 occurrences
yields no pattern. -/
theorem c5_amended (bms : List BowelMovementData) (syms : List SymptomData)
    (t : String) :
    ((∃ s ∈ syms, s.type = t) →
      ∃ c, (t, c) ∈ analyzeSymptomCorrelations bms syms) ∧
    ((syms.filter (·.type == t)).length < 3 →
      ∀ pats, detectSymptomPatterns bms syms = some pats →
        ∀ p ∈ pats, p.symptom_type ≠ t) := by
  constructor
  · rintro ⟨s, hs, rfl⟩
    have ht : s.type ∈ firstDedup (syms.map (·.type)) :=
      (mem_firstDedup _ _).mpr (List.mem_map.mpr ⟨s, hs, rfl⟩)
    have hmem : s ∈ syms.filter (·.type == s.type) :=
      List.mem_filter.mpr ⟨hs, by simp⟩
    have hne : (syms.filter (·.type == s.type)).isEmpty = false := by
      rcases hl : syms.filter (·.type == s.type) with _ | ⟨x, xs⟩
      · rw [hl] at hmem
        simp at hmem
      · rw [hl]
        rfl
    obtain ⟨c, hc⟩ : ∃ c, calcSymptomCorrelation bms
        (syms.filter (·.type == s.type)) = some c := by
      unfold calcSymptomCorrelation
      rw [hne]
      exact ⟨_, rfl⟩
    exact ⟨c, List.mem_filterMap.mpr ⟨s.type, ht, by rw [hc]; rfl⟩⟩
  · intro hlt pats hpats p hp
    unfold detectSymptomPatterns at hpats
    split at hpats
    · cases hpats
    · replace hpats := Option.some.inj hpats
      subst hpats
      simp only [List.mem_flatMap] at hp
      obtain ⟨t', ht', hp⟩ := hp
      by_cases htt : t' = t
      · subst htt
        rw [if_pos hlt] at hp
        simp at hp
      · split at hp
        · simp at hp
        · split at hp
          · simp at hp
          · simp only [List.mem_singleton] at hp
            rw [hp]
            exact htt

/-- C5, witness: `c5_amended` on the single-bloating-symptom input. -/
theorem c5_witness :
    (∃ c, ("bloating", c) ∈ analyzeSymptomCorrelations c5bms c5syms) ∧
    (∀ p ∈ ([] : List SymptomPattern), p.symptom_type ≠ "bloating") := by
  constructor
  · exact (c5_amended c5bms c5syms "bloating").1
      ⟨{ type := "bloating", severity := 5, created_at := 100 }, by decide, rfl⟩
  · exact (c5_amended c5bms c5syms "bloating").2 (by decide) [] (by decide)

/-! ## C10: grouped daily counts keep dead the low-frequency branches -/

/-- Every grouped daily count is at least 1: a date appears as a key only
because some record fell on it. -/
theorem dailyCounts_pos (bms : List BowelMovementData) :
    ∀ c ∈ dailyCounts bms, 1 ≤ c := by
  intro c hc
  unfold dailyCounts at hc
  simp only [List.mem_map] at hc
  obtain ⟨d, hd, rfl⟩ := hc
  have hmem : d ∈ bms.map (fun bm => dateOf bm.created_at) :=
    (mem_firstDedup _ _).mp hd
  exact List.count_pos_iff.mpr hmem

/-- A non-empty record list has a non-empty daily-count series. -/
theorem dailyCounts_ne_nil (bms : List BowelMovementData) (h : bms ≠ []) :
    dailyCounts bms ≠ [] := by
  intro hnil
  rcases bms with _ | ⟨b, bs⟩
  · exact h rfl
  · have hmem : dateOf b.created_at ∈
        firstDedup ((b :: bs).map (fun bm => dateOf bm.created_at)) :=
      (mem_firstDedup _ _).mpr (by simp)
    unfold dailyCounts at hnil
    rw [List.map_eq_nil_iff] at hnil
    rw [hnil] at hmem
    simp at hmem

/-- A non-empty list of rationals all at least 1 has sum at least its
length. -/
theorem length_le_sum (l : List ℚ) (h : ∀ x ∈ l, 1 ≤ x) :
    (l.length : ℚ) ≤ l.sum := by
  induction l with
  | nil => simp
  | cons x xs ih =>
    have h1 := h x (by simp)
    have h2 := ih (fun y hy => h y (by simp [hy]))
    simp only [List.length_cons, List.sum_cons]
    push_cast
    linarith

/-- The mean of a non-empty list of rationals all at least 1 is at least 1. -/
theorem one_le_meanQ (l : List ℚ) (hne : l ≠ []) (h : ∀ x ∈ l, 1 ≤ x) :
    1 ≤ meanQ l := by
  have hlen : (0 : ℚ) < l.length := by
    have := List.length_pos_of_ne_nil hne
    exact_mod_cast this
  unfold meanQ
  rw [le_div_iff₀ hlen, one_mul]
  exact length_le_sum l h

/-- C10: grouping by calendar date yields daily counts all ≥ 1, hence a mean
daily frequency ≥ 1; the below-range frequency-score branch (mean < 0.5),
the low-frequency routine recommendation (mean < 0.5) and the
severe-constipation risk factor (mean < 0.3) can never fire on the value the
analyzer feeds them. -/
theorem c10_confirmed (bms : List BowelMovementData) (h : bms ≠ []) :
    (∀ c ∈ dailyCounts bms, 1 ≤ c) ∧
    1 ≤ avgDaily bms ∧
    ¬ avgDaily bms < 1/2 ∧
    frequencyBaseScore ((dailyCounts bms).map (Nat.cast : ℕ → ℚ)) =
      (if avgDaily bms ≤ 3 then 100
       else max 0 (100 * (1 - (avgDaily bms - 3) / 3))) ∧
    (∀ r ∈ generateFrequencyRecommendations (avgDaily bms),
      r.title ≠ "Establish Regular Bathroom Routine") ∧
    (∀ r ∈ identifyFrequencyRisks (avgDaily bms),
      r.factor ≠ "severe_constipation") := by
  have hpos := dailyCounts_pos bms
  have hnil := dailyCounts_ne_nil bms h
  have hmapnil : (dailyCounts bms).map (Nat.cast : ℕ → ℚ) ≠ [] := by
    intro hm
    exact hnil (List.map_eq_nil_iff.mp hm)
  have h1 : 1 ≤ avgDaily bms := by
    apply one_le_meanQ _ hmapnil
    intro x hx
    rw [List.mem_map] at hx
    obtain ⟨c, hc, hxc⟩ := hx
    rw [← hxc]
    exact_mod_cast hpos c hc
  have hhalf : ¬ avgDaily bms < 1/2 := not_lt.mpr (by linarith)
  refine ⟨hpos, h1, hhalf, ?_, ?_, ?_⟩
  · unfold frequencyBaseScore
    rw [if_neg (by simpa [List.isEmpty_iff] using hmapnil)]
    have havg : meanQ ((dailyCounts bms).map (Nat.cast : ℕ → ℚ)) =
        avgDaily bms := rfl
    rw [havg]
    by_cases h3 : avgDaily bms ≤ 3
    · rw [if_pos ⟨by linarith, h3⟩, if_pos h3]
    · rw [if_neg (fun hc => h3 hc.2), if_neg hhalf, if_neg h3]
  · intro r hr
    unfold generateFrequencyRecommendations at hr
    rw [if_neg hhalf] at hr
    split at hr
    · simp only [List.mem_singleton] at hr
      rw [hr]
      decide
    · simp at hr
  · intro r hr
    unfold identifyFrequencyRisks at hr
    rw [if_neg (by intro hc; linarith)] at hr
    split at hr
    · simp only [List.mem_singleton] at hr
      rw [hr]
      decide
    · simp at hr

/-- C10, witness: `c10_confirmed` on a single record. -/
theorem c10_witness :
    ([bmAt 0] : List BowelMovementData) ≠ [] ∧ 1 ≤ avgDaily [bmAt 0] :=
  ⟨by decide, (c10_confirmed [bmAt 0] (by decide)).2.1⟩

/-! ## C9: percentage rounding bounds -/

/-- The computational floor agrees with the mathematical floor. -/
theorem ratFloor_eq (x : ℚ) : ratFloor x = ⌊x⌋ := by
  unfold ratFloor
  exact Rat.floor_def.symm

/-- Half-even rounding moves a rational by at most 1/2. -/
theorem abs_roundHalfEven_sub_le (x : ℚ) :
    |(roundHalfEven x : ℚ) - x| ≤ 1/2 := by
  have hfl : ((ratFloor x : ℤ) : ℚ) ≤ x := by
    rw [ratFloor_eq]
    exact Int.floor_le x
  have hfu : x < ((ratFloor x : ℤ) : ℚ) + 1 := by
    rw [ratFloor_eq]
    exact Int.lt_floor_add_one x
  unfold roundHalfEven
  split_ifs with h1 h2 h3 <;> (rw [abs_le]; push_cast; constructor <;> linarith)

/-- Half-even rounding never goes below the floor. -/
theorem ratFloor_le_roundHalfEven (x : ℚ) : ratFloor x ≤ roundHalfEven x := by
  unfold roundHalfEven
  split_ifs <;> omega

/-- Half-even rounding of a non-negative rational is non-negative. -/
theorem roundHalfEven_nonneg (x : ℚ) (h : 0 ≤ x) : 0 ≤ roundHalfEven x := by
  have h0 : 0 ≤ ratFloor x := by
    rw [ratFloor_eq]
    exact Int.floor_nonneg.mpr h
  exact le_trans h0 (ratFloor_le_roundHalfEven x)

/-- Half-even rounding respects an integer upper bound. -/
theorem roundHalfEven_le_of_le (x : ℚ) (z : ℤ) (h : x ≤ (z : ℚ)) :
    roundHalfEven x ≤ z := by
  have hfl : ((ratFloor x : ℤ) : ℚ) ≤ x := by
    rw [ratFloor_eq]
    exact Int.floor_le x
  have hfz : ratFloor x ≤ z := by
    rw [ratFloor_eq]
    calc ⌊x⌋ ≤ ⌊(z : ℚ)⌋ := Int.floor_le_floor h
      _ = z := Int.floor_intCast z
  unfold roundHalfEven
  split_ifs with h1 h2 h3
  · exact hfz
  · have hlt : ((ratFloor x : ℤ) : ℚ) < (z : ℚ) := by linarith
    have : ratFloor x < z := by exact_mod_cast hlt
    omega
  · exact hfz
  · have hge : (1 : ℚ)/2 ≤ x - ((ratFloor x : ℤ) : ℚ) := not_lt.mp h1
    have hlt : ((ratFloor x : ℤ) : ℚ) < (z : ℚ) := by linarith
    have : ratFloor x < z := by exact_mod_cast hlt
    omega

/-- Two-decimal rounding moves a rational by at most 0.005. -/
theorem abs_round2_sub_le (x : ℚ) : |round2 x - x| ≤ 1/200 := by
  have h := abs_roundHalfEven_sub_le (100 * x)
  have heq : round2 x - x = ((roundHalfEven (100 * x) : ℚ) - 100 * x) / 100 := by
    unfold round2
    ring
  rw [heq, abs_div, abs_of_pos (by norm_num : (0 : ℚ) < 100),
    div_le_iff₀ (by norm_num : (0 : ℚ) < 100)]
  linarith

/-- Two-decimal rounding keeps non-negativity. -/
theorem round2_nonneg (x : ℚ) (h : 0 ≤ x) : 0 ≤ round2 x := by
  unfold round2
  apply div_nonneg _ (by norm_num)
  have := roundHalfEven_nonneg (100 * x) (by linarith)
  exact_mod_cast this

/-- Two-decimal rounding of a value at most 100 stays at most 100. -/
theorem round2_le_hundred (x : ℚ) (h : x ≤ 100) : round2 x ≤ 100 := by
  have h1 : 100 * x ≤ ((10000 : ℤ) : ℚ) := by
    push_cast
    linarith
  have h2 := roundHalfEven_le_of_le (100 * x) 10000 h1
  unfold round2
  rw [div_le_iff₀ (by norm_num : (0 : ℚ) < 100)]
  calc (roundHalfEven (100 * x) : ℚ) ≤ 10000 := by exact_mod_cast h2
    _ = 100 * 100 := by norm_num

/-- Subtraction distributes over mapped sums. -/
theorem sum_map_sub_q {α : Type} (f g : α → ℚ) (S : List α) :
    (S.map f).sum - (S.map g).sum = (S.map (fun v => f v - g v)).sum := by
  induction S with
  | nil => simp
  | cons x xs ih =>
    simp only [List.map_cons, List.sum_cons]
    linarith

/-- A bound on each summand bounds the mapped sum. -/
theorem abs_sum_map_le {α : Type} (h : α → ℚ) (c : ℚ) (S : List α)
    (hc : ∀ v ∈ S, |h v| ≤ c) : |(S.map h).sum| ≤ S.length * c := by
  induction S with
  | nil => simp
  | cons x xs ih =>
    simp only [List.map_cons, List.sum_cons, List.length_cons]
    have hx := hc x (by simp)
    have hxs := ih (fun v hv => hc v (by simp [hv]))
    calc |h x + (xs.map h).sum| ≤ |h x| + |(xs.map h).sum| := abs_add _ _
      _ ≤ c + xs.length * c := add_le_add hx hxs
      _ = (xs.length + 1) * c := by ring
      _ = ((xs.length + 1 : ℕ) : ℚ) * c := by push_cast; ring

/-- Pulling a constant factor out of a mapped sum. -/
theorem sum_map_mul_const {α : Type} (f : α → ℚ) (c : ℚ) (S : List α) :
    (S.map (fun v => f v * c)).sum = (S.map f).sum * c := by
  induction S with
  | nil => simp
  | cons x xs ih =>
    simp only [List.map_cons, List.sum_cons, ih]
    ring

/-- Casting a mapped natural sum into the rationals. -/
theorem sum_map_natCast {α : Type} (f : α → ℕ) (S : List α) :
    (S.map (fun v => ((f v : ℕ) : ℚ))).sum = (((S.map f).sum : ℕ) : ℚ) := by
  induction S with
  | nil => simp
  | cons x xs ih =>
    simp only [List.map_cons, List.sum_cons, ih]
    push_cast
    ring

/-- Before rounding, the per-category percentages of a non-empty list sum to
exactly 100. -/
theorem sum_percentages_exact (l : List ℤ) (hne : l ≠ []) :
    ((sortedBristolValues l).map
      (fun v => (l.count v : ℚ) / l.length * 100)).sum = 100 := by
  have hperm : List.Perm (sortedBristolValues l) l.dedup :=
    List.perm_insertionSort _ _
  have hmap := (hperm.map (fun v => (l.count v : ℚ) / l.length * 100)).sum_eq
  rw [hmap]
  have hshape : l.dedup.map (fun v => (l.count v : ℚ) / l.length * 100) =
      l.dedup.map (fun v => ((l.count v : ℕ) : ℚ) * (100 / l.length)) := by
    apply List.map_congr_left
    intro v _
    ring
  rw [hshape, sum_map_mul_const, sum_map_natCast,
    List.sum_map_count_dedup_eq_length]
  have hlen : ((l.length : ℕ) : ℚ) ≠ 0 := by
    have := List.length_pos_of_ne_nil hne
    positivity
  field_simp

/-- At most 7 distinct categories occur among in-range records. -/
theorem dedup_length_le_seven (l : List ℤ)
    (hr : ∀ v ∈ l, 1 ≤ v ∧ v ≤ 7) : l.dedup.length ≤ 7 := by
  have hsub : l.dedup ⊆ [1, 2, 3, 4, 5, 6, 7] := by
    intro v hv
    have hvr := hr v (List.mem_dedup.mp hv)
    simp only [List.mem_cons, List.not_mem_nil, or_false]
    omega
  have := (List.subperm_of_subset (List.nodup_dedup l) hsub).length_le
  simpa using this

/-- C9, amended: every per-category percentage lies in [0,100], and the
percentages sum to 100 within ±0.035 — seven categories each rounded to two
decimals can each contribute up to 0.005 of rounding error, so the claimed
±0.02 tolerance is too tight while 7 × 0.005 = 0.035 is sound. -/
theorem c9_amended (l : List ℤ) (hne : l ≠ [])
    (hr : ∀ v ∈ l, 1 ≤ v ∧ v ≤ 7) :
    (∀ pr ∈ bristolPercentages l, 0 ≤ pr.2 ∧ pr.2 ≤ 100) ∧
    |percentageSum l - 100| ≤ 7/200 := by
  have hlen : (0 : ℚ) < l.length := by
    have := List.length_pos_of_ne_nil hne
    exact_mod_cast this
  constructor
  · intro pr hpr
    unfold bristolPercentages at hpr
    rw [List.mem_map] at hpr
    obtain ⟨v, hv, hpr⟩ := hpr
    rw [← hpr]
    have hcle : (l.count v : ℚ) ≤ l.length := by
      exact_mod_cast List.count_le_length v l
    have hx0 : 0 ≤ (l.count v : ℚ) / l.length * 100 := by positivity
    have hx100 : (l.count v : ℚ) / l.length * 100 ≤ 100 := by
      rw [div_mul_eq_mul_div, div_le_iff₀ hlen]
      linarith
    exact ⟨round2_nonneg _ hx0, round2_le_hundred _ hx100⟩
  · have hMap : (bristolPercentages l).map Prod.snd =
        (sortedBristolValues l).map
          (fun v => round2 ((l.count v : ℚ) / l.length * 100)) := by
      unfold bristolPercentages
      rw [List.map_map]
      rfl
    have hlen7 : (sortedBristolValues l).length ≤ 7 := by
      unfold sortedBristolValues
      rw [List.length_insertionSort]
      exact dedup_length_le_seven l hr
    have hdiff : percentageSum l - 100 =
        ((sortedBristolValues l).map
          (fun v => round2 ((l.count v : ℚ) / l.length * 100) -
            (l.count v : ℚ) / l.length * 100)).sum := by
      unfold percentageSum
      rw [hMap]
      have h0 := sum_map_sub_q
        (fun v => round2 ((l.count v : ℚ) / l.length * 100))
        (fun v => (l.count v : ℚ) / l.length * 100) (sortedBristolValues l)
      rw [sum_percentages_exact l hne] at h0
      exact h0
    rw [hdiff]
    have hbound := abs_sum_map_le
      (fun v => round2 ((l.count v : ℚ) / l.length * 100) -
        (l.count v : ℚ) / l.length * 100) (1/200) (sortedBristolValues l)
      (fun v _ => abs_round2_sub_le _)
    have hlen7q : ((sortedBristolValues l).length : ℚ) ≤ 7 := by
      exact_mod_cast hlen7
    calc |((sortedBristolValues l).map _).sum| ≤
        ((sortedBristolValues l).length : ℚ) * (1/200) := hbound
      _ ≤ 7 * (1/200) := by
        apply mul_le_mul_of_nonneg_right hlen7q
        norm_num
      _ = 7/200 := by norm_num

/-- C9, witness: `c9_amended` on a single ideal record. -/
theorem c9_witness :
    (([4] : List ℤ) ≠ [] ∧ ∀ v ∈ ([4] : List ℤ), 1 ≤ v ∧ v ≤ 7) ∧
    (∀ pr ∈ bristolPercentages [4], 0 ≤ pr.2 ∧ pr.2 ≤ 100) ∧
    |percentageSum [4] - 100| ≤ 7/200 :=
  ⟨⟨by decide, by decide⟩, c9_amended [4] (by decide) (by decide)⟩

/-! ## C8: the validation gate of `/analyze` -/

/-- An if-empty-singleton error is absent exactly when its witness list is
empty. -/
theorem ite_isEmpty_eq_nil {α β : Type} (l : List α) (e : β) :
    (if l.isEmpty then ([] : List β) else [e]) = [] ↔ l = [] := by
  split_ifs with h
  · simp [List.isEmpty_iff.mp h]
  · constructor
    · intro hc
      simp at hc
    · intro hnil
      rw [hnil] at h
      simp at h

/-- Entry-count errors are absent exactly for 1 to 1000 entries. -/
theorem entryCountErrors_eq_nil (entries : List BowelMovementData) :
    entryCountErrors entries = [] ↔ entries ≠ [] ∧ entries.length ≤ 1000 := by
  unfold entryCountErrors
  split_ifs with h1 h2
  · simp [List.length_eq_zero.mp h1]
  · constructor
    · intro hc
      simp at hc
    · rintro ⟨hne, hle⟩
      exact absurd h2 (by omega)
  · constructor
    · intro _
      refine ⟨fun hnil => h1 ?_, by omega⟩
      rw [hnil]
      rfl
    · intro _
      rfl

/-- Time-range errors are absent exactly when no entry is in the future. -/
theorem timeRangeErrors_eq_nil (now : ℤ) (entries : List BowelMovementData) :
    timeRangeErrors now entries = [] ↔
      ∀ e ∈ entries, e.created_at ≤ now := by
  unfold timeRangeErrors
  by_cases he : entries.isEmpty
  · rw [if_pos he]
    rw [List.isEmpty_iff.mp he]
    simp
  · rw [if_neg he, ite_isEmpty_eq_nil, List.filter_eq_nil_iff]
    constructor
    · intro hall e hee
      have := hall e hee
      simpa using this
    · intro hall e hee
      simpa using hall e hee

/-- Bristol errors are absent exactly when every type is in 1-7. -/
theorem bristolErrors_eq_nil (entries : List BowelMovementData) :
    bristolErrors entries = [] ↔
      ∀ e ∈ entries, 1 ≤ e.bristol_type ∧ e.bristol_type ≤ 7 := by
  unfold bristolErrors
  rw [ite_isEmpty_eq_nil, List.filter_eq_nil_iff]
  constructor
  · intro hall e hee
    have := hall e hee
    simp at this
    omega
  · intro hall e hee
    have := hall e hee
    simp
    omega

/-- One score segment of `_validate_scores` is silent exactly when the score
is absent or in range. -/
theorem score_segment_eq_nil (v : Option ℤ) (mk : ℤ → ValidationError) :
    (match v with
     | some p => if p < 1 ∨ 10 < p then [mk p] else []
     | none => ([] : List ValidationError)) = [] ↔ scoreInRange v := by
  cases v with
  | none => simp [scoreInRange]
  | some p =>
    by_cases h : p < 1 ∨ 10 < p
    · simp only [h, if_true]
      simp [scoreInRange]
      omega
    · simp only [h, if_false]
      simp [scoreInRange]
      omega

/-- Score errors are absent exactly when every present score is in range. -/
theorem scoreErrors_eq_nil (entries : List BowelMovementData) :
    scoreErrors entries = [] ↔
      ∀ e ∈ entries, scoreInRange e.pain ∧ scoreInRange e.strain ∧
        scoreInRange e.satisfaction := by
  unfold scoreErrors
  rw [List.flatMap_eq_nil_iff]
  refine forall_congr' (fun e => forall_congr' (fun he => ?_))
  rw [List.append_eq_nil, List.append_eq_nil,
    score_segment_eq_nil e.pain ValidationError.invalidPain,
    score_segment_eq_nil e.strain ValidationError.invalidStrain,
    score_segment_eq_nil e.satisfaction ValidationError.invalidSatisfaction]
  exact and_assoc

/-- The guarded meal section is silent exactly when every present
spicy level of the possibly absent meal list is in range. -/
theorem guardedMealErrors_eq_nil (meals : Option (List MealData)) :
    guardedMealErrors meals = [] ↔
      ∀ m ∈ meals.getD [], scoreInRange m.spicy_level := by
  cases meals with
  | none => simp [guardedMealErrors]
  | some ms =>
    simp only [guardedMealErrors, Option.getD_some]
    by_cases hm : ms.isEmpty
    · rw [if_pos hm, List.isEmpty_iff.mp hm]
      simp
    · rw [if_neg hm]
      unfold mealErrors
      rw [ite_isEmpty_eq_nil, List.filter_eq_nil_iff]
      refine forall_congr' (fun m => forall_congr' (fun hmm => ?_))
      cases m.spicy_level with
      | none => simp [scoreInRange]
      | some s =>
        simp [scoreInRange]
        try omega

/-- The guarded symptom section is silent exactly when every severity of
the possibly absent symptom list is in range. -/
theorem guardedSymptomErrors_eq_nil (syms : Option (List SymptomData)) :
    guardedSymptomErrors syms = [] ↔
      ∀ s ∈ syms.getD [], 1 ≤ s.severity ∧ s.severity ≤ 10 := by
  cases syms with
  | none => simp [guardedSymptomErrors]
  | some ss =>
    simp only [guardedSymptomErrors, Option.getD_some]
    by_cases hs : ss.isEmpty
    · rw [if_pos hs, List.isEmpty_iff.mp hs]
      simp
    · rw [if_neg hs]
      unfold symptomErrors
      rw [ite_isEmpty_eq_nil, List.filter_eq_nil_iff]
      refine forall_congr' (fun sy => forall_congr' (fun hsy => ?_))
      simp
      try omega

/-- The validator reports no error exactly on well-formed requests. -/
theorem validate_eq_nil (now : ℤ) (req : AnalysisRequest) :
    validateAnalysisRequest now req = [] ↔ wellFormedRequest now req := by
  unfold validateAnalysisRequest wellFormedRequest
  rw [List.append_eq_nil, List.append_eq_nil, List.append_eq_nil,
    List.append_eq_nil, List.append_eq_nil, entryCountErrors_eq_nil,
    timeRangeErrors_eq_nil, bristolErrors_eq_nil, scoreErrors_eq_nil,
    guardedMealErrors_eq_nil, guardedSymptomErrors_eq_nil]
  tauto

/-- A failing validator makes `/analyze` answer 400 with exactly its error
list. -/
theorem analyze_error_of_ne_nil (now : ℤ) (req : AnalysisRequest)
    (h : validateAnalysisRequest now req ≠ []) :
    analyze now req =
      .error (.validation (validateAnalysisRequest now req)) := by
  unfold analyze
  rw [if_neg (by simpa [List.isEmpty_iff] using h)]

/-- `analyze_comprehensive_patterns` succeeds on non-empty records when
every meal flag is a real boolean. -/
theorem analyzeComprehensivePatterns_ok (bms : List BowelMovementData)
    (meals : List MealData) (syms : List SymptomData) (hb : bms ≠ [])
    (hf : ∀ m ∈ meals, (m.dairy).isSome ∧ (m.gluten).isSome ∧
      (m.fiber_rich).isSome) :
    ∃ r, analyzeComprehensivePatterns bms meals syms = .ok r := by
  have hsec : ∃ mc, mealCorrelationsSection bms meals = .ok mc := by
    by_cases hm : meals.isEmpty
    · exact ⟨none, by unfold mealCorrelationsSection; rw [if_pos hm]⟩
    · obtain ⟨tb, htb⟩ := identifyTriggerBeneficialFoods_ok bms meals hf
      refine ⟨some { category_correlations := categoryCorrelations bms meals
                     trigger_foods := tb.1
                     beneficial_foods := tb.2 }, ?_⟩
      unfold mealCorrelationsSection
      rw [if_neg hm, htb]
  obtain ⟨mc, hmc⟩ := hsec
  unfold analyzeComprehensivePatterns
  rw [if_neg (by simpa [List.isEmpty_iff] using hb), hmc]
  exact ⟨_, rfl⟩

/-- With no validation error but an absent meal or symptom list, the
conversion loop raises and `/analyze` answers 500. -/
theorem analyze_internal_of_none (now : ℤ) (req : AnalysisRequest)
    (hval : validateAnalysisRequest now req = [])
    (h : req.meals = none ∨ req.symptoms = none) :
    analyze now req =
      .error (.internalError "NoneType object is not iterable") := by
  unfold analyze
  rw [hval]
  simp only [List.isEmpty_nil, if_true]
  have hcond : (req.meals.isNone || req.symptoms.isNone) = true := by
    rcases h with hm | hs
    · rw [hm]
      rfl
    · rw [hs]
      simp
  rw [if_pos hcond]

/-- With no validation error, both lists present and a meal with a missing
boolean flag, the bucket masks raise and `/analyze` answers 400 via the
`ValueError` handler. -/
theorem analyze_valueError_of_flag_gap (now : ℤ) (req : AnalysisRequest)
    (meals : List MealData) (syms : List SymptomData)
    (hval : validateAnalysisRequest now req = [])
    (hm : req.meals = some meals) (hs : req.symptoms = some syms)
    (hb : req.entries ≠ [])
    (hflag : ¬ ∀ m ∈ meals, (m.dairy).isSome ∧ (m.gluten).isSome ∧
      (m.fiber_rich).isSome) :
    analyze now req = .error (.valueError
      "Cannot mask with non-boolean array containing NA / NaN values") := by
  have hmne : meals.isEmpty = false := by
    rcases meals with _ | ⟨m, ms⟩
    · exact absurd (by intro m hmm; simp at hmm) hflag
    · rfl
  have hsec : mealCorrelationsSection req.entries meals = .error
      "Cannot mask with non-boolean array containing NA / NaN values" := by
    unfold mealCorrelationsSection
    rw [hmne]
    simp only [Bool.false_eq_true, if_false]
    rw [identifyTriggerBeneficialFoods_error req.entries meals hflag]
  have hcomp : analyzeComprehensivePatterns req.entries meals syms = .error
      "Cannot mask with non-boolean array containing NA / NaN values" := by
    unfold analyzeComprehensivePatterns
    rw [if_neg (by simpa [List.isEmpty_iff] using hb), hsec]
  unfold analyze
  rw [hval]
  simp only [List.isEmpty_nil, if_true]
  rw [hm, hs]
  simp only [Option.isNone_some, Bool.or_self, Bool.false_eq_true, if_false,
    Option.getD_some]
  rw [hcomp]

/-- C8, amended: an out-of-range Bristol type, pain, strain, satisfaction or
severity is rejected with a validation error naming the offending field and
value, and no report is produced.  A well-formed request — non-empty, but
also at most 1000 entries and no future timestamps, restrictions the claim
omits — yields a report only when it carries both optional lists and every
meal's boolean flags: an absent `meals` or `symptoms` field crashes the
conversion loop (`TypeError`, answered 500), and a present meal with an
unset dairy/gluten/fiber flag makes the pandas bucket mask raise
(`ValueError`, answered 400). -/
theorem c8_amended (now : ℤ) (req : AnalysisRequest) :
    ((∃ e ∈ req.entries, e.bristol_type < 1 ∨ 7 < e.bristol_type) →
      ∃ es, analyze now req = .error (.validation es) ∧
        ∃ n, ValidationError.invalidBristolTypes n ∈ es) ∧
    (∀ p, (∃ e ∈ req.entries, e.pain = some p ∧ (p < 1 ∨ 10 < p)) →
      ∃ es, analyze now req = .error (.validation es) ∧
        ValidationError.invalidPain p ∈ es) ∧
    (∀ p, (∃ e ∈ req.entries, e.strain = some p ∧ (p < 1 ∨ 10 < p)) →
      ∃ es, analyze now req = .error (.validation es) ∧
        ValidationError.invalidStrain p ∈ es) ∧
    (∀ p, (∃ e ∈ req.entries, e.satisfaction = some p ∧ (p < 1 ∨ 10 < p)) →
      ∃ es, analyze now req = .error (.validation es) ∧
        ValidationError.invalidSatisfaction p ∈ es) ∧
    ((∃ s ∈ req.symptoms.getD [], s.severity < 1 ∨ 10 < s.severity) →
      ∃ es, analyze now req = .error (.validation es) ∧
        ∃ n, ValidationError.invalidSeverity n ∈ es) ∧
    (∀ meals syms, wellFormedRequest now req → req.meals = some meals →
      req.symptoms = some syms →
      (∀ m ∈ meals, (m.dairy).isSome ∧ (m.gluten).isSome ∧
        (m.fiber_rich).isSome) →
      ∃ r, analyze now req = .ok r) ∧
    (wellFormedRequest now req →
      req.meals = none ∨ req.symptoms = none →
      analyze now req =
        .error (.internalError "NoneType object is not iterable")) ∧
    (∀ meals syms, wellFormedRequest now req → req.meals = some meals →
      req.symptoms = some syms →
      (¬ ∀ m ∈ meals, (m.dairy).isSome ∧ (m.gluten).isSome ∧
        (m.fiber_rich).isSome) →
      analyze now req = .error (.valueError
        "Cannot mask with non-boolean array containing NA / NaN values")) := by
  refine ⟨?_, ?_, ?_, ?_, ?_, ?_, ?_, ?_⟩
  · rintro ⟨e, he, hcond⟩
    have hne : req.entries.filter (fun e =>
        decide (e.bristol_type < 1) || decide (7 < e.bristol_type)) ≠ [] := by
      intro hnil
      have := List.filter_eq_nil_iff.mp hnil e he
      simp at this
      omega
    have hb : ValidationError.invalidBristolTypes
        ((req.entries.filter (fun e =>
          decide (e.bristol_type < 1) || decide (7 < e.bristol_type))).length)
        ∈ bristolErrors req.entries := by
      unfold bristolErrors
      rw [if_neg (by simpa [List.isEmpty_iff] using hne)]
      exact List.mem_singleton.mpr rfl
    have hmem : ValidationError.invalidBristolTypes
        ((req.entries.filter (fun e =>
          decide (e.bristol_type < 1) || decide (7 < e.bristol_type))).length)
        ∈ validateAnalysisRequest now req := by
      unfold validateAnalysisRequest
      simp only [List.mem_append]
      exact Or.inl (Or.inl (Or.inl (Or.inr hb)))
    exact ⟨_, analyze_error_of_ne_nil now req (List.ne_nil_of_mem hmem),
      _, hmem⟩
  · intro p hp
    have hmp : ValidationError.invalidPain p ∈ scoreErrors req.entries := by
      obtain ⟨e, he, hpe, hcond⟩ := hp
      unfold scoreErrors
      refine List.mem_flatMap.mpr ⟨e, he, ?_⟩
      refine List.mem_append.mpr (Or.inl (List.mem_append.mpr (Or.inl ?_)))
      rw [hpe]
      simp [hcond]
    have hmem : ValidationError.invalidPain p ∈
        validateAnalysisRequest now req := by
      unfold validateAnalysisRequest
      simp only [List.mem_append]
      exact Or.inl (Or.inl (Or.inr hmp))
    exact ⟨_, analyze_error_of_ne_nil now req (List.ne_nil_of_mem hmem), hmem⟩
  · intro p hp
    have hmp : ValidationError.invalidStrain p ∈ scoreErrors req.entries := by
      obtain ⟨e, he, hpe, hcond⟩ := hp
      unfold scoreErrors
      refine List.mem_flatMap.mpr ⟨e, he, ?_⟩
      refine List.mem_append.mpr (Or.inl (List.mem_append.mpr (Or.inr ?_)))
      rw [hpe]
      simp [hcond]
    have hmem : ValidationError.invalidStrain p ∈
        validateAnalysisRequest now req := by
      unfold validateAnalysisRequest
      simp only [List.mem_append]
      exact Or.inl (Or.inl (Or.inr hmp))
    exact ⟨_, analyze_error_of_ne_nil now req (List.ne_nil_of_mem hmem), hmem⟩
  · intro p hp
    have hmp : ValidationError.invalidSatisfaction p ∈
        scoreErrors req.entries := by
      obtain ⟨e, he, hpe, hcond⟩ := hp
      unfold scoreErrors
      refine List.mem_flatMap.mpr ⟨e, he, ?_⟩
      refine List.mem_append.mpr (Or.inr ?_)
      rw [hpe]
      simp [hcond]
    have hmem : ValidationError.invalidSatisfaction p ∈
        validateAnalysisRequest now req := by
      unfold validateAnalysisRequest
      simp only [List.mem_append]
      exact Or.inl (Or.inl (Or.inr hmp))
    exact ⟨_, analyze_error_of_ne_nil now req (List.ne_nil_of_mem hmem), hmem⟩
  · rintro ⟨sy, hsy, hcond⟩
    have hne : (req.symptoms.getD []).filter (fun s =>
        decide (s.severity < 1) || decide (10 < s.severity)) ≠ [] := by
      intro hnil
      have := List.filter_eq_nil_iff.mp hnil sy hsy
      simp at this
      omega
    have hb : ValidationError.invalidSeverity
        (((req.symptoms.getD []).filter (fun s =>
          decide (s.severity < 1) || decide (10 < s.severity))).length)
        ∈ guardedSymptomErrors req.symptoms := by
      cases hso : req.symptoms with
      | none =>
        rw [hso] at hne
        simp at hne
      | some ss =>
        rw [hso] at hne
        simp only [Option.getD_some] at hne ⊢
        have hssne : ss.isEmpty = false := by
          rcases ss with _ | _
          · simp at hne
          · rfl
        simp only [guardedSymptomErrors, hssne, Bool.false_eq_true, if_false]
        unfold symptomErrors
        rw [if_neg (by simpa [List.isEmpty_iff] using hne)]
        exact List.mem_singleton.mpr rfl
    have hmem : ValidationError.invalidSeverity
        (((req.symptoms.getD []).filter (fun s =>
          decide (s.severity < 1) || decide (10 < s.severity))).length)
        ∈ validateAnalysisRequest now req := by
      unfold validateAnalysisRequest
      simp only [List.mem_append]
      exact Or.inr hb
    exact ⟨_, analyze_error_of_ne_nil now req (List.ne_nil_of_mem hmem),
      _, hmem⟩
  · intro meals syms hwf hm hs hflags
    obtain ⟨r, hr⟩ :=
      analyzeComprehensivePatterns_ok req.entries meals syms hwf.1 hflags
    refine ⟨r, ?_⟩
    unfold analyze
    rw [(validate_eq_nil now req).mpr hwf]
    simp only [List.isEmpty_nil, if_true]
    rw [hm, hs]
    simp only [Option.isNone_some, Bool.or_self, Bool.false_eq_true, if_false,
      Option.getD_some]
    rw [hr]
  · intro hwf h
    exact analyze_internal_of_none now req
      ((validate_eq_nil now req).mpr hwf) h
  · intro meals syms hwf hm hs hflag
    exact analyze_valueError_of_flag_gap now req meals syms
      ((validate_eq_nil now req).mpr hwf) hm hs hwf.1 hflag

/-- C8, witness: `c8_amended` rejecting a request with one Bristol type of
9, accepting a small well-formed request carrying both lists, answering 500
on a well-formed request omitting them, and answering 400 on a well-formed
request whose meal leaves its boolean flags unset. -/
theorem c8_witness :
    (∃ e ∈ c8badBristolReq.entries,
      e.bristol_type < 1 ∨ 7 < e.bristol_type) ∧
    (∃ es, analyze 1000 c8badBristolReq = .error (.validation es) ∧
      ∃ n, ValidationError.invalidBristolTypes n ∈ es) ∧
    wellFormedRequest 1000 c8goodReq ∧
    (∃ r, analyze 1000 c8goodReq = .ok r) ∧
    wellFormedRequest 1000 c8noneReq ∧
    analyze 1000 c8noneReq =
      .error (.internalError "NoneType object is not iterable") ∧
    wellFormedRequest 1000 c8maskReq ∧
    analyze 1000 c8maskReq = .error (.valueError
      "Cannot mask with non-boolean array containing NA / NaN values") :=
  ⟨by decide, (c8_amended 1000 c8badBristolReq).1 (by decide),
    by unfold wellFormedRequest; decide,
    (c8_amended 1000 c8goodReq).2.2.2.2.2.1 [] []
      (by unfold wellFormedRequest; decide) rfl rfl (by decide),
    by unfold wellFormedRequest; decide,
    (c8_amended 1000 c8noneReq).2.2.2.2.2.2.1
      (by unfold wellFormedRequest; decide) (Or.inl rfl),
    by unfold wellFormedRequest; decide,
    (c8_amended 1000 c8maskReq).2.2.2.2.2.2.2 [{ meal_time := 0 }] []
      (by unfold wellFormedRequest; decide) rfl rfl (by decide)⟩

set_option maxRecDepth 8000 in
/-- C8, counterexample: a request of 1001 entries, each individually valid
and in the past, is still rejected (`max_entries_per_request` is 1000), so
"every valid non-empty health-record list yields a report" fails as
stated. -/
theorem c8_counterexample :
    c8req.entries ≠ [] ∧
    (∀ e ∈ c8req.entries, 1 ≤ e.bristol_type ∧ e.bristol_type ≤ 7 ∧
      scoreInRange e.pain ∧ scoreInRange e.strain ∧
      scoreInRange e.satisfaction ∧ e.created_at ≤ 1000) ∧
    analyze 1000 c8req = .error (.validation [.tooManyEntries 1001]) := by
  refine ⟨by simp [c8req], ?_, ?_⟩
  · intro e he
    simp only [c8req] at he
    rw [List.mem_replicate] at he
    rw [he.2]
    decide
  · have hv : validateAnalysisRequest 1000 c8req =
        [.tooManyEntries 1001] := by
      unfold validateAnalysisRequest entryCountErrors timeRangeErrors
        bristolErrors scoreErrors c8req
      simp only [List.length_replicate]
      rw [filter_replicate_of_neg _ _ (by decide),
        filter_replicate_of_neg _ _ (by decide),
        flatMap_replicate_of_nil _ _ (by decide)]
      simp [guardedMealErrors, guardedSymptomErrors]
    rw [analyze_error_of_ne_nil 1000 c8req (by rw [hv]; simp), hv]

end PooTracker
